import Mathlib

/-!
Shallow embedding of the SM83 CPU core of the chocboy repository
(namespace cocoa::gb) for checking the natural-language specification
against the code.

The embedding follows the variant of the sources that the claims cite:
the instruction tables and executors of src/cocoa/gb (file starting with
the Load enum), the Sm83State accessors (sm83.tpp), the Sm83State
declaration with table sizes NO_PREFIX_INSTR_TABLE_SIZE = 255 and
CB_PREFIX_INSTR_TABLE_SIZE = 256, and the MemoryBus implementation with
MEMORY_BUS_SIZE = 65535.

Machine integers are modelled as Nat with explicit reductions: every
value flowing through a uint8_t is reduced mod 256 at the point where
the C++ type forces the conversion, and uint16_t values mod 65536.
Reads and writes of the std::array backing store of the memory bus are
modelled in Option: an out-of-bounds access (undefined behaviour in the
source) is none.  Likewise an instruction-table lookup outside the
declared table size is none.  Fallible computations thread Option.
The debug mnemonic strings and the logger are omitted; the IllegalOpcode
exception is modelled as a step outcome carrying the CPU state at the
throw point, which is exactly the state the C++ m_state holds when the
exception propagates.
-/

namespace Chocboy

/-- cocoa::from_pair for uint8 pair to uint16: (high << 8) | low.
For high, low < 256 (forced by the uint8_t parameter type at every call
site) this equals high * 256 + low. -/
def from_pair (high low : Nat) : Nat := high * 256 + low

/-- cocoa::from_high for uint16 to uint8: static_cast of (value >> 8). -/
def from_high (value : Nat) : Nat := value / 256 % 256

/-- cocoa::from_low for uint16 to uint8: value masked to the low byte. -/
def from_low (value : Nat) : Nat := value % 256

/-- cocoa::set_bit on a uint8: var |= 1 << pos. -/
def set_bit (pos var : Nat) : Nat := var ||| (1 <<< pos)

/-- cocoa::clear_bit on a uint8: var &= static_cast of the complement of
(1 << pos), which on a uint8 is 255 XOR (1 << pos). -/
def clear_bit (pos var : Nat) : Nat := var &&& (255 ^^^ (1 <<< pos))

/-- cocoa::is_bit_set on a uint8: (var >> pos) & 1. -/
def is_bit_set (pos var : Nat) : Bool := var.testBit pos

/-- cocoa::toggle_bit on a uint8: var ^= 1 << pos. -/
def toggle_bit (pos var : Nat) : Nat := var ^^^ (1 <<< pos)

/-- cocoa::conditional_bit_toggle: set the bit when the condition holds,
clear it otherwise. -/
def conditional_bit_toggle (pos var : Nat) (condition : Bool) : Nat :=
  if condition then set_bit pos var else clear_bit pos var

/-- Combined effect of static_cast to int8_t followed by addition to an
unsigned value taken modulo a power of 2 that is a multiple of 65536 or
of 256: adding the raw byte x when it reads as non-negative, and
x + 65280 (congruent to x - 256) when it reads as negative. -/
def int8_offset (x : Nat) : Nat := if x < 128 then x else x + 65280

/-- MEMORY_BUS_SIZE from memory.hpp.  The source declares 65535, one
cell short of the 64 KiB address space: valid indices are 0..65534. -/
def MEMORY_BUS_SIZE : Nat := 65535

/-- NO_PREFIX_INSTR_TABLE_SIZE from the sm83 header: declared 255, so
the unprefixed table has slots 0..254 only. -/
def NO_PREFIX_INSTR_TABLE_SIZE : Nat := 255

/-- CB_PREFIX_INSTR_TABLE_SIZE from the sm83 header: 256. -/
def CB_PREFIX_INSTR_TABLE_SIZE : Nat := 256

/-- The GameBoy memory bus: the std::array of MEMORY_BUS_SIZE uint8
cells.  Only indices below MEMORY_BUS_SIZE denote real cells; the
function value elsewhere is meaningless because every access is bounds
checked in the operations below. -/
structure MemoryBus where
  cells : Nat → Nat

/-- MemoryBus::read_byte: m_bus[address].  An index at or beyond
MEMORY_BUS_SIZE is outside the backing array (undefined behaviour):
none. -/
def MemoryBus.read_byte (m : MemoryBus) (address : Nat) : Option Nat :=
  if address < MEMORY_BUS_SIZE then some (m.cells address % 256) else none

/-- MemoryBus::write_byte: m_bus[address] = value. -/
def MemoryBus.write_byte (m : MemoryBus) (address value : Nat) : Option MemoryBus :=
  if address < MEMORY_BUS_SIZE then
    some ⟨fun a => if a = address then value % 256 else m.cells a⟩
  else none

/-- MemoryBus::read_word: from_pair(read_byte(address),
read_byte(address + 1)) — the byte at the LOWER address becomes the HIGH
half of the result.  The address + 1 passes through the uint16_t
parameter of read_byte, hence mod 65536. -/
def MemoryBus.read_word (m : MemoryBus) (address : Nat) : Option Nat := do
  let high ← m.read_byte address
  let low ← m.read_byte ((address + 1) % 65536)
  pure (from_pair high low)

/-- MemoryBus::write_word: from_high(value) at address, from_low(value)
at address + 1. -/
def MemoryBus.write_word (m : MemoryBus) (address value : Nat) : Option MemoryBus := do
  let m ← m.write_byte address (from_high value)
  m.write_byte ((address + 1) % 65536) (from_low value)

/-- Reg8 from the sm83 header (constructor order as in the source). -/
inductive Reg8
  | B | C | IndirHramC | D | E | H | L | IndirHL | A
deriving DecidableEq

/-- Reg16 from the sm83 header. -/
inductive Reg16
  | BC | DE | HL | SP
deriving DecidableEq

/-- Reg16Stack from the sm83 header. -/
inductive Reg16Stack
  | BC | DE | HL | AF
deriving DecidableEq

/-- Reg16Indir from the sm83 header. -/
inductive Reg16Indir
  | BC | DE | HLI | HLD
deriving DecidableEq

/-- Imm8 addressing modes from the sm83 header. -/
inductive Imm8
  | Direct | IndirHram | IndirAbsolute
deriving DecidableEq

/-- Imm16 addressing modes from the sm83 header. -/
inductive Imm16
  | Direct | IndirAbsolute
deriving DecidableEq

/-- Flag from the sm83 header: Z = 7, N = 6, H = 5, C = 4. -/
inductive Flag
  | Z | N | H | C
deriving DecidableEq

/-- Bit position of a flag in the F register. -/
def Flag.pos : Flag → Nat
  | .Z => 7
  | .N => 6
  | .H => 5
  | .C => 4

/-- Condition from the sm83 header. -/
inductive Condition
  | NZ | Z | NC | C
deriving DecidableEq

/-- Sm83Mode from the sm83 header. -/
inductive Sm83Mode
  | Running | Halted | Stopped
deriving DecidableEq

/-- Sm83State: the regs array (RegIndex A=0 F=1 B=2 C=3 D=4 E=5 H=6 L=7
spelled out as one field per cell), the cycle counters, the memory bus,
the execution mode, SP, PC and IME. -/
structure Sm83State where
  regA : Nat
  regF : Nat
  regB : Nat
  regC : Nat
  regD : Nat
  regE : Nat
  regH : Nat
  regL : Nat
  mcycles : Nat
  tstates : Nat
  bus : MemoryBus
  mode : Sm83Mode
  sp : Nat
  pc : Nat
  ime : Bool

/-- Sm83State::Sm83State: DMG power-on register file
{0x01, 0x80, 0x00, 0x13, 0x00, 0xD8, 0x01, 0x4D}, counters zero, mode
Running, SP 0xFFFE, PC 0x0100, IME true. -/
def powerOn (memory : MemoryBus) : Sm83State :=
  { regA := 0x01, regF := 0x80, regB := 0x00, regC := 0x13
    regD := 0x00, regE := 0xD8, regH := 0x01, regL := 0x4D
    mcycles := 0, tstates := 0, bus := memory
    mode := Sm83Mode.Running, sp := 0xFFFE, pc := 0x0100, ime := true }

/-- Sm83State::load_reg16: 16-bit pairs compose (high << 8) | low from
the named 8-bit cells; SP reads the sp field. -/
def Sm83State.load_reg16 (cpu : Sm83State) : Reg16 → Nat
  | .BC => from_pair cpu.regB cpu.regC
  | .DE => from_pair cpu.regD cpu.regE
  | .HL => from_pair cpu.regH cpu.regL
  | .SP => cpu.sp

/-- Sm83State::load_reg8.  IndirHramC reads bus[from_pair(0xFF, C)],
IndirHL reads bus[HL]. -/
def Sm83State.load_reg8 (cpu : Sm83State) : Reg8 → Option Nat
  | .B => some cpu.regB
  | .C => some cpu.regC
  | .IndirHramC => cpu.bus.read_byte (from_pair 0xFF cpu.regC)
  | .D => some cpu.regD
  | .E => some cpu.regE
  | .H => some cpu.regH
  | .L => some cpu.regL
  | .IndirHL => cpu.bus.read_byte (cpu.load_reg16 Reg16.HL)
  | .A => some cpu.regA

/-- Sm83State::store_reg8.  The value passes through the uint8_t
parameter, hence mod 256. -/
def Sm83State.store_reg8 (cpu : Sm83State) (r : Reg8) (value : Nat) : Option Sm83State :=
  let value := value % 256
  match r with
  | .B => some { cpu with regB := value }
  | .C => some { cpu with regC := value }
  | .IndirHramC => do
      let bus ← cpu.bus.write_byte (from_pair 0xFF cpu.regC) value
      pure { cpu with bus := bus }
  | .D => some { cpu with regD := value }
  | .E => some { cpu with regE := value }
  | .H => some { cpu with regH := value }
  | .L => some { cpu with regL := value }
  | .IndirHL => do
      let bus ← cpu.bus.write_byte (cpu.load_reg16 Reg16.HL) value
      pure { cpu with bus := bus }
  | .A => some { cpu with regA := value }

/-- Sm83State::store_reg16: high half to the first-named register, low
half to the second; the value passes through the uint16_t parameter,
hence mod 65536. -/
def Sm83State.store_reg16 (cpu : Sm83State) (r : Reg16) (value : Nat) : Sm83State :=
  let value := value % 65536
  match r with
  | .BC => { cpu with regB := from_high value, regC := from_low value }
  | .DE => { cpu with regD := from_high value, regE := from_low value }
  | .HL => { cpu with regH := from_high value, regL := from_low value }
  | .SP => { cpu with sp := value }

/-- Sm83State::load_reg16_stack.  AF composes from_pair(A, F) with no
masking of the low nibble of F. -/
def Sm83State.load_reg16_stack (cpu : Sm83State) : Reg16Stack → Nat
  | .BC => cpu.load_reg16 Reg16.BC
  | .DE => cpu.load_reg16 Reg16.DE
  | .HL => cpu.load_reg16 Reg16.HL
  | .AF => from_pair cpu.regA cpu.regF

/-- Sm83State::store_reg16_stack.  The AF case stores from_high to A and
from_low to F verbatim: the low nibble of F is NOT masked to zero. -/
def Sm83State.store_reg16_stack (cpu : Sm83State) (r : Reg16Stack) (value : Nat) : Sm83State :=
  let value := value % 65536
  match r with
  | .BC => cpu.store_reg16 Reg16.BC value
  | .DE => cpu.store_reg16 Reg16.DE value
  | .HL => cpu.store_reg16 Reg16.HL value
  | .AF => { cpu with regA := from_high value, regF := from_low value }

/-- Sm83State::load_reg16_indir.  HLI and HLD post-increment and
post-decrement HL through store_reg16 (which wraps mod 65536). -/
def Sm83State.load_reg16_indir (cpu : Sm83State) : Reg16Indir → Option (Nat × Sm83State)
  | .BC => do
      let value ← cpu.bus.read_byte (cpu.load_reg16 Reg16.BC)
      pure (value, cpu)
  | .DE => do
      let value ← cpu.bus.read_byte (cpu.load_reg16 Reg16.DE)
      pure (value, cpu)
  | .HLI => do
      let addr := cpu.load_reg16 Reg16.HL
      let value ← cpu.bus.read_byte addr
      pure (value, cpu.store_reg16 Reg16.HL (addr + 1))
  | .HLD => do
      let addr := cpu.load_reg16 Reg16.HL
      let value ← cpu.bus.read_byte addr
      pure (value, cpu.store_reg16 Reg16.HL (addr + 65535))

/-- Sm83State::store_reg16_indir, with the same HL side effects. -/
def Sm83State.store_reg16_indir (cpu : Sm83State) (r : Reg16Indir) (value : Nat) :
    Option Sm83State :=
  match r with
  | .BC => do
      let bus ← cpu.bus.write_byte (cpu.load_reg16 Reg16.BC) value
      pure { cpu with bus := bus }
  | .DE => do
      let bus ← cpu.bus.write_byte (cpu.load_reg16 Reg16.DE) value
      pure { cpu with bus := bus }
  | .HLI => do
      let addr := cpu.load_reg16 Reg16.HL
      let bus ← cpu.bus.write_byte addr value
      pure (Sm83State.store_reg16 { cpu with bus := bus } Reg16.HL (addr + 1))
  | .HLD => do
      let addr := cpu.load_reg16 Reg16.HL
      let bus ← cpu.bus.write_byte addr value
      pure (Sm83State.store_reg16 { cpu with bus := bus } Reg16.HL (addr + 65535))

/-- Sm83State::load_imm8.  Direct reads the byte at PC and advances PC
by 1; IndirHram forms from_pair(0xFF, byte at PC) and advances PC by 1;
IndirAbsolute reads the word at PC as the address and advances PC
by 2. -/
def Sm83State.load_imm8 (cpu : Sm83State) : Imm8 → Option (Nat × Sm83State)
  | .Direct => do
      let value ← cpu.bus.read_byte cpu.pc
      pure (value, { cpu with pc := (cpu.pc + 1) % 65536 })
  | .IndirHram => do
      let offset ← cpu.bus.read_byte cpu.pc
      let cpu := { cpu with pc := (cpu.pc + 1) % 65536 }
      let value ← cpu.bus.read_byte (from_pair 0xFF offset)
      pure (value, cpu)
  | .IndirAbsolute => do
      let addr ← cpu.bus.read_word cpu.pc
      let value ← cpu.bus.read_byte addr
      pure (value, { cpu with pc := (cpu.pc + 2) % 65536 })

/-- Sm83State::store_imm8.  Direct addressing cannot store (a
static_assert in the source); the other modes mirror load_imm8. -/
def Sm83State.store_imm8 (cpu : Sm83State) (i : Imm8) (value : Nat) : Option Sm83State :=
  match i with
  | .Direct => none
  | .IndirHram => do
      let offset ← cpu.bus.read_byte cpu.pc
      let cpu := { cpu with pc := (cpu.pc + 1) % 65536 }
      let bus ← cpu.bus.write_byte (from_pair 0xFF offset) value
      pure { cpu with bus := bus }
  | .IndirAbsolute => do
      let addr ← cpu.bus.read_word cpu.pc
      let cpu := { cpu with pc := (cpu.pc + 2) % 65536 }
      let bus ← cpu.bus.write_byte addr value
      pure { cpu with bus := bus }

/-- Sm83State::load_imm16 with Imm16::Direct (the only instantiation the
source admits): the word at PC via MemoryBus::read_word, PC advanced
by 2. -/
def Sm83State.load_imm16 (cpu : Sm83State) : Option (Nat × Sm83State) := do
  let value ← cpu.bus.read_word cpu.pc
  pure (value, { cpu with pc := (cpu.pc + 2) % 65536 })

/-- Sm83State::store_imm16 with Imm16::IndirAbsolute (the only
instantiation the source admits): read the target address at PC, advance
PC by 2, write the word there. -/
def Sm83State.store_imm16 (cpu : Sm83State) (value : Nat) : Option Sm83State := do
  let addr ← cpu.bus.read_word cpu.pc
  let cpu := { cpu with pc := (cpu.pc + 2) % 65536 }
  let bus ← cpu.bus.write_word addr value
  pure { cpu with bus := bus }

/-- Sm83State::set_flag. -/
def Sm83State.set_flag (cpu : Sm83State) (f : Flag) : Sm83State :=
  { cpu with regF := set_bit f.pos cpu.regF }

/-- Sm83State::clear_flag. -/
def Sm83State.clear_flag (cpu : Sm83State) (f : Flag) : Sm83State :=
  { cpu with regF := clear_bit f.pos cpu.regF }

/-- Sm83State::conditional_flag_toggle: set when the condition holds,
clear otherwise. -/
def Sm83State.conditional_flag_toggle (cpu : Sm83State) (f : Flag) (condition : Bool) :
    Sm83State :=
  { cpu with regF := conditional_bit_toggle f.pos cpu.regF condition }

/-- Sm83State::toggle_flag. -/
def Sm83State.toggle_flag (cpu : Sm83State) (f : Flag) : Sm83State :=
  { cpu with regF := toggle_bit f.pos cpu.regF }

/-- Sm83State::is_flag_set. -/
def Sm83State.is_flag_set (cpu : Sm83State) (f : Flag) : Bool :=
  is_bit_set f.pos cpu.regF

/-- Sm83State::is_condition_set. -/
def Sm83State.is_condition_set (cpu : Sm83State) : Condition → Bool
  | .NZ => !(cpu.is_flag_set Flag.Z)
  | .Z => cpu.is_flag_set Flag.Z
  | .NC => !(cpu.is_flag_set Flag.C)
  | .C => cpu.is_flag_set Flag.C

/-- Direction template parameter of rotate and shift. -/
inductive Direction
  | Left | Right
deriving DecidableEq

/-- Shift template parameter (spelling Arithmatic as in the source). -/
inductive ShiftKind
  | Logical | Arithmatic
deriving DecidableEq

/-- is_carry for Operation::Add: result < operand1 (unsigned wrap). -/
def is_carry_add (result operand1 : Nat) : Bool := decide (result < operand1)

/-- is_carry for Operation::Sub: result > operand1 (unsigned wrap). -/
def is_carry_sub (result operand1 : Nat) : Bool := decide (operand1 < result)

/-- is_half_carry for Operation::Add:
(((operand1 & 0x0F) + (operand2 & 0x0F)) & 0x10) == 0x10. -/
def is_half_carry_add (operand1 operand2 : Nat) : Bool :=
  ((operand1 &&& 15) + (operand2 &&& 15)) &&& 16 == 16

/-- is_half_carry for Operation::Sub:
(((operand1 & 0x0F) - (operand2 & 0x0F)) & 0x10) == 0x10 in signed int
arithmetic, which holds exactly when the low nibble of operand1 is
smaller than that of operand2. -/
def is_half_carry_sub (operand1 operand2 : Nat) : Bool :=
  decide ((operand1 &&& 15) < (operand2 &&& 15))

/-- An instruction executor: void (*)(Sm83State&), fallible because it
may touch the bus out of bounds. -/
abbrev Executor := Sm83State → Option Sm83State

/-- load of reg8 from reg8 (also covers the IndirHL and IndirHramC
pseudo-registers). -/
def load_r8_r8 (dst src : Reg8) : Executor := fun cpu => do
  let value ← cpu.load_reg8 src
  cpu.store_reg8 dst value

/-- load of reg8 from imm8. -/
def load_r8_imm8 (dst : Reg8) (src : Imm8) : Executor := fun cpu => do
  let (value, cpu) ← cpu.load_imm8 src
  cpu.store_reg8 dst value

/-- load of imm8-addressed memory from reg8. -/
def load_imm8_r8 (dst : Imm8) (src : Reg8) : Executor := fun cpu => do
  let value ← cpu.load_reg8 src
  cpu.store_imm8 dst value

/-- load of reg16 from imm16 (Imm16::Direct). -/
def load_r16_imm16 (dst : Reg16) : Executor := fun cpu => do
  let (value, cpu) ← cpu.load_imm16
  pure (cpu.store_reg16 dst value)

/-- load of imm16-addressed memory from reg16 (LD [n16], SP). -/
def load_imm16_r16 (src : Reg16) : Executor := fun cpu =>
  cpu.store_imm16 (cpu.load_reg16 src)

/-- load of reg16-indirect memory from reg8. -/
def load_r16indir_r8 (dst : Reg16Indir) (src : Reg8) : Executor := fun cpu => do
  let value ← cpu.load_reg8 src
  cpu.store_reg16_indir dst value

/-- load of reg8 from reg16-indirect memory. -/
def load_r8_r16indir (dst : Reg8) (src : Reg16Indir) : Executor := fun cpu => do
  let (value, cpu) ← cpu.load_reg16_indir src
  cpu.store_reg8 dst value

/-- load of reg16 from reg16 (LD SP, HL). -/
def load_r16_r16 (dst src : Reg16) : Executor := fun cpu =>
  pure (cpu.store_reg16 dst (cpu.load_reg16 src))

/-- load_hl_sp_offset: HL := SP + signed imm8; Z and N cleared, H from
the half-carry of SP and the raw offset byte, C from result < SP. -/
def load_hl_sp_offset : Executor := fun cpu => do
  let (offset, cpu) ← cpu.load_imm8 Imm8.Direct
  let result := (cpu.sp + int8_offset offset) % 65536
  let cpu := cpu.store_reg16 Reg16.HL result
  let cpu := cpu.clear_flag Flag.Z
  let cpu := cpu.clear_flag Flag.N
  let cpu := cpu.conditional_flag_toggle Flag.H (is_half_carry_add cpu.sp offset)
  pure (cpu.conditional_flag_toggle Flag.C (is_carry_add result cpu.sp))

/-- push of a stack pair: the LOW byte goes to the decremented SP first,
then the HIGH byte to the next decremented SP. -/
def push (src : Reg16Stack) : Executor := fun cpu => do
  let reg16 := cpu.load_reg16_stack src
  let sp1 := (cpu.sp + 65535) % 65536
  let bus1 ← cpu.bus.write_byte sp1 (from_low reg16)
  let sp2 := (sp1 + 65535) % 65536
  let bus2 ← bus1.write_byte sp2 (from_high reg16)
  pure { cpu with sp := sp2, bus := bus2 }

/-- pop of a stack pair: high from SP, low from SP + 1, SP += 2. -/
def pop (dst : Reg16Stack) : Executor := fun cpu => do
  let high ← cpu.bus.read_byte cpu.sp
  let cpu := { cpu with sp := (cpu.sp + 1) % 65536 }
  let low ← cpu.bus.read_byte cpu.sp
  let cpu := { cpu with sp := (cpu.sp + 1) % 65536 }
  pure (cpu.store_reg16_stack dst (from_pair high low))

/-- inc of a reg8: Z from the result, N cleared, H from the half-carry
of the operand and 1; C untouched. -/
def inc_r8 (dst : Reg8) : Executor := fun cpu => do
  let operand ← cpu.load_reg8 dst
  let result := (operand + 1) % 256
  let cpu ← cpu.store_reg8 dst result
  let cpu := cpu.conditional_flag_toggle Flag.Z (result == 0)
  let cpu := cpu.clear_flag Flag.N
  pure (cpu.conditional_flag_toggle Flag.H (is_half_carry_add operand 1))

/-- dec of a reg8: Z from the result, N set, H from the sub half-carry
of the operand and 1; C untouched. -/
def dec_r8 (dst : Reg8) : Executor := fun cpu => do
  let operand ← cpu.load_reg8 dst
  let result := (operand + 255) % 256
  let cpu ← cpu.store_reg8 dst result
  let cpu := cpu.conditional_flag_toggle Flag.Z (result == 0)
  let cpu := cpu.set_flag Flag.N
  pure (cpu.conditional_flag_toggle Flag.H (is_half_carry_sub operand 1))

/-- inc of a reg16: no flags. -/
def inc_r16 (dst : Reg16) : Executor := fun cpu =>
  pure (cpu.store_reg16 dst (cpu.load_reg16 dst + 1))

/-- dec of a reg16: no flags. -/
def dec_r16 (dst : Reg16) : Executor := fun cpu =>
  pure (cpu.store_reg16 dst (cpu.load_reg16 dst + 65535))

/-- add_update_flags: Z from the result, N cleared, H from the add
half-carry of the operands, C from result < operand1. -/
def add_update_flags (cpu : Sm83State) (result operand1 operand2 : Nat) : Sm83State :=
  let cpu := cpu.conditional_flag_toggle Flag.Z (result == 0)
  let cpu := cpu.clear_flag Flag.N
  let cpu := cpu.conditional_flag_toggle Flag.H (is_half_carry_add operand1 operand2)
  cpu.conditional_flag_toggle Flag.C (is_carry_add result operand1)

/-- add_a over a reg8 source; with UseCarry::Yes the carry flag is
folded into the second operand before the 8-bit add. -/
def add_a_r8 (src : Reg8) (useCarry : Bool) : Executor := fun cpu => do
  let operand1 ← cpu.load_reg8 Reg8.A
  let srcVal ← cpu.load_reg8 src
  let operand2 :=
    if useCarry then (srcVal + (cpu.is_flag_set Flag.C).toNat) % 256 else srcVal
  let result := (operand1 + operand2) % 256
  let cpu ← cpu.store_reg8 Reg8.A result
  pure (add_update_flags cpu result operand1 operand2)

/-- add_a over an imm8 source. -/
def add_a_imm8 (src : Imm8) (useCarry : Bool) : Executor := fun cpu => do
  let operand1 ← cpu.load_reg8 Reg8.A
  let (srcVal, cpu) ← cpu.load_imm8 src
  let operand2 :=
    if useCarry then (srcVal + (cpu.is_flag_set Flag.C).toNat) % 256 else srcVal
  let result := (operand1 + operand2) % 256
  let cpu ← cpu.store_reg8 Reg8.A result
  pure (add_update_flags cpu result operand1 operand2)

/-- sub_update_flags: Z from the result, N set, H and C from the sub
rules. -/
def sub_update_flags (cpu : Sm83State) (result operand1 operand2 : Nat) : Sm83State :=
  let cpu := cpu.conditional_flag_toggle Flag.Z (result == 0)
  let cpu := cpu.set_flag Flag.N
  let cpu := cpu.conditional_flag_toggle Flag.H (is_half_carry_sub operand1 operand2)
  cpu.conditional_flag_toggle Flag.C (is_carry_sub result operand1)

/-- sub_a over a reg8 source; with UseCarry::Yes the carry flag is
subtracted from the second operand (uint8 wrap) before the 8-bit
subtract. -/
def sub_a_r8 (src : Reg8) (useCarry : Bool) : Executor := fun cpu => do
  let operand1 ← cpu.load_reg8 Reg8.A
  let srcVal ← cpu.load_reg8 src
  let operand2 :=
    if useCarry then (srcVal + 256 - (cpu.is_flag_set Flag.C).toNat) % 256 else srcVal
  let result := (operand1 + 256 - operand2) % 256
  let cpu ← cpu.store_reg8 Reg8.A result
  pure (sub_update_flags cpu result operand1 operand2)

/-- sub_a over an imm8 source. -/
def sub_a_imm8 (src : Imm8) (useCarry : Bool) : Executor := fun cpu => do
  let operand1 ← cpu.load_reg8 Reg8.A
  let (srcVal, cpu) ← cpu.load_imm8 src
  let operand2 :=
    if useCarry then (srcVal + 256 - (cpu.is_flag_set Flag.C).toNat) % 256 else srcVal
  let result := (operand1 + 256 - operand2) % 256
  let cpu ← cpu.store_reg8 Reg8.A result
  pure (sub_update_flags cpu result operand1 operand2)

/-- add_sp_offset: SP += signed imm8; Z and N cleared, H from the
half-carry of the old SP and the raw offset byte, C from
result < old SP. -/
def add_sp_offset : Executor := fun cpu => do
  let operand1 := cpu.sp
  let (offset, cpu) ← cpu.load_imm8 Imm8.Direct
  let result := (operand1 + int8_offset offset) % 65536
  let cpu := { cpu with sp := result }
  let cpu := cpu.clear_flag Flag.Z
  let cpu := cpu.clear_flag Flag.N
  let cpu := cpu.conditional_flag_toggle Flag.H (is_half_carry_add operand1 offset)
  pure (cpu.conditional_flag_toggle Flag.C (is_carry_add result operand1))

/-- add_hl: HL += reg16; N cleared, H from the LOW-NIBBLE half-carry of
the 16-bit operands (as the source template computes it), C from
result < operand1; Z untouched. -/
def add_hl (src : Reg16) : Executor := fun cpu => do
  let operand1 := cpu.load_reg16 Reg16.HL
  let operand2 := cpu.load_reg16 src
  let result := (operand1 + operand2) % 65536
  let cpu := cpu.store_reg16 Reg16.HL result
  let cpu := cpu.clear_flag Flag.N
  let cpu := cpu.conditional_flag_toggle Flag.H (is_half_carry_add operand1 operand2)
  pure (cpu.conditional_flag_toggle Flag.C (is_carry_add result operand1))

/-- and_update_flags: Z from the result, N cleared, H set, C cleared. -/
def and_update_flags (cpu : Sm83State) (result : Nat) : Sm83State :=
  let cpu := cpu.conditional_flag_toggle Flag.Z (result == 0)
  let cpu := cpu.clear_flag Flag.N
  let cpu := cpu.set_flag Flag.H
  cpu.clear_flag Flag.C

/-- and_a over a reg8 source. -/
def and_a_r8 (src : Reg8) : Executor := fun cpu => do
  let srcVal ← cpu.load_reg8 src
  let result := cpu.regA &&& srcVal
  let cpu ← cpu.store_reg8 Reg8.A result
  pure (and_update_flags cpu result)

/-- and_a over an imm8 source. -/
def and_a_imm8 (src : Imm8) : Executor := fun cpu => do
  let operand1 ← cpu.load_reg8 Reg8.A
  let (operand2, cpu) ← cpu.load_imm8 src
  let result := operand1 &&& operand2
  let cpu ← cpu.store_reg8 Reg8.A result
  pure (and_update_flags cpu result)

/-- or_xor_update_flags: Z from the result, N, H and C cleared. -/
def or_xor_update_flags (cpu : Sm83State) (result : Nat) : Sm83State :=
  let cpu := cpu.conditional_flag_toggle Flag.Z (result == 0)
  let cpu := cpu.clear_flag Flag.N
  let cpu := cpu.clear_flag Flag.H
  cpu.clear_flag Flag.C

/-- or_a over a reg8 source. -/
def or_a_r8 (src : Reg8) : Executor := fun cpu => do
  let srcVal ← cpu.load_reg8 src
  let result := cpu.regA ||| srcVal
  let cpu ← cpu.store_reg8 Reg8.A result
  pure (or_xor_update_flags cpu result)

/-- or_a over an imm8 source. -/
def or_a_imm8 (src : Imm8) : Executor := fun cpu => do
  let operand1 ← cpu.load_reg8 Reg8.A
  let (operand2, cpu) ← cpu.load_imm8 src
  let result := operand1 ||| operand2
  let cpu ← cpu.store_reg8 Reg8.A result
  pure (or_xor_update_flags cpu result)

/-- xor_a over a reg8 source. -/
def xor_a_r8 (src : Reg8) : Executor := fun cpu => do
  let srcVal ← cpu.load_reg8 src
  let result := cpu.regA ^^^ srcVal
  let cpu ← cpu.store_reg8 Reg8.A result
  pure (or_xor_update_flags cpu result)

/-- xor_a over an imm8 source. -/
def xor_a_imm8 (src : Imm8) : Executor := fun cpu => do
  let operand1 ← cpu.load_reg8 Reg8.A
  let (operand2, cpu) ← cpu.load_imm8 src
  let result := operand1 ^^^ operand2
  let cpu ← cpu.store_reg8 Reg8.A result
  pure (or_xor_update_flags cpu result)

/-- cp_a over a reg8 source: subtract, discard, set flags. -/
def cp_a_r8 (src : Reg8) : Executor := fun cpu => do
  let operand1 ← cpu.load_reg8 Reg8.A
  let operand2 ← cpu.load_reg8 src
  let result := (operand1 + 256 - operand2) % 256
  pure (sub_update_flags cpu result operand1 operand2)

/-- cp_a over an imm8 source. -/
def cp_a_imm8 (src : Imm8) : Executor := fun cpu => do
  let operand1 ← cpu.load_reg8 Reg8.A
  let (operand2, cpu) ← cpu.load_imm8 src
  let result := (operand1 + 256 - operand2) % 256
  pure (sub_update_flags cpu result operand1 operand2)

/-- complement_carry_flag (CCF): N and H cleared, C toggled. -/
def complement_carry_flag : Executor := fun cpu =>
  pure (((cpu.clear_flag Flag.N).clear_flag Flag.H).toggle_flag Flag.C)

/-- set_carry_flag (SCF): N and H cleared, C set. -/
def set_carry_flag : Executor := fun cpu =>
  pure (((cpu.clear_flag Flag.N).clear_flag Flag.H).set_flag Flag.C)

/-- complement_a (CPL): A := bitwise complement of A (uint8); N and H
set. -/
def complement_a : Executor := fun cpu => do
  let cpu ← cpu.store_reg8 Reg8.A (255 - cpu.regA)
  pure ((cpu.set_flag Flag.N).set_flag Flag.H)

/-- decimal_adjust (DAA) exactly as the source writes it: when N is
clear or A exceeds 0x99, add 0x60 and set C; otherwise subtract 0x60
when C is set and 0x06 when H is set.  Z from the result, H cleared. -/
def decimal_adjust : Executor := fun cpu => do
  let rega := cpu.regA
  let (rega, cpu) :=
    if !(cpu.is_flag_set Flag.N) || decide (0x99 < rega) then
      ((rega + 0x60) % 256, cpu.set_flag Flag.C)
    else
      let rega := if cpu.is_flag_set Flag.C then (rega + 256 - 0x60) % 256 else rega
      let rega := if cpu.is_flag_set Flag.H then (rega + 256 - 0x06) % 256 else rega
      (rega, cpu)
  let cpu ← cpu.store_reg8 Reg8.A rega
  let cpu := cpu.conditional_flag_toggle Flag.Z (rega == 0)
  pure (cpu.clear_flag Flag.H)

/-- rotate template: the carry-out is bit 7 (left) or bit 0 (right);
with UseCarry::No the rotate is circular, with UseCarry::Yes the old
carry flag is shifted in.  UseZero::No forces Z clear, UseZero::Yes
computes Z from the result.  N and H cleared, C from the carry-out. -/
def rotate (dst : Reg8) (d : Direction) (useZero useCarry : Bool) : Executor := fun cpu => do
  let operand ← cpu.load_reg8 dst
  let carry :=
    match d with
    | Direction.Left => operand / 128
    | Direction.Right => operand % 2
  let result :=
    match d with
    | Direction.Left =>
        if useCarry then (operand * 2 + (cpu.is_flag_set Flag.C).toNat) % 256
        else (operand * 2 + operand / 128) % 256
    | Direction.Right =>
        if useCarry then operand / 2 + (cpu.is_flag_set Flag.C).toNat * 128
        else operand / 2 + operand % 2 * 128
  let cpu ← cpu.store_reg8 dst result
  let cpu :=
    if useZero then cpu.conditional_flag_toggle Flag.Z (result == 0)
    else cpu.clear_flag Flag.Z
  let cpu := cpu.clear_flag Flag.N
  let cpu := cpu.clear_flag Flag.H
  pure (cpu.conditional_flag_toggle Flag.C (carry == 1))

/-- shift template: left shifts drop into C from bit 7 and shift in 0;
logical right shifts drop bit 0 and shift in 0; arithmetic right shifts
re-or the preserved sign bit from bit 6 of the shifted value.  Z from
the result, N and H cleared, C from the carry-out. -/
def shift (dst : Reg8) (d : Direction) (s : ShiftKind) : Executor := fun cpu => do
  let operand ← cpu.load_reg8 dst
  let carry :=
    match d with
    | Direction.Left => operand / 128
    | Direction.Right => operand % 2
  let result :=
    match d, s with
    | Direction.Left, _ => operand * 2 % 256
    | Direction.Right, ShiftKind.Logical => operand / 2
    | Direction.Right, ShiftKind.Arithmatic => operand / 2 + (operand / 2 &&& 64) * 2
  let cpu ← cpu.store_reg8 dst result
  let cpu := cpu.conditional_flag_toggle Flag.Z (result == 0)
  let cpu := cpu.clear_flag Flag.N
  let cpu := cpu.clear_flag Flag.H
  pure (cpu.conditional_flag_toggle Flag.C (carry == 1))

/-- swap template: exchange the nibbles; Z from the result, N, H and C
cleared. -/
def swap (dst : Reg8) : Executor := fun cpu => do
  let operand ← cpu.load_reg8 dst
  let result := operand % 16 * 16 + operand / 16
  let cpu ← cpu.store_reg8 dst result
  let cpu := cpu.conditional_flag_toggle Flag.Z (result == 0)
  let cpu := cpu.clear_flag Flag.N
  let cpu := cpu.clear_flag Flag.H
  pure (cpu.clear_flag Flag.C)

/-- test_bit template (BIT n, r) exactly as the source writes it: the Z
flag is assigned the VALUE of the tested bit (not its negation); N
cleared, H set, C untouched, operand untouched. -/
def test_bit (bit : Nat) (src : Reg8) : Executor := fun cpu => do
  let reg ← cpu.load_reg8 src
  let cpu := cpu.conditional_flag_toggle Flag.Z (is_bit_set bit reg)
  let cpu := cpu.clear_flag Flag.N
  pure (cpu.set_flag Flag.H)

/-- reset_bit template (RES n, r): clear the bit, no flags. -/
def reset_bit_r8 (bit : Nat) (dst : Reg8) : Executor := fun cpu => do
  let reg ← cpu.load_reg8 dst
  cpu.store_reg8 dst (clear_bit bit reg)

/-- set_bit template (SET n, r): set the bit, no flags. -/
def set_bit_r8 (bit : Nat) (dst : Reg8) : Executor := fun cpu => do
  let reg ← cpu.load_reg8 dst
  cpu.store_reg8 dst (set_bit bit reg)

/-- jump_imm16 (JP n16). -/
def jump_imm16 : Executor := fun cpu => do
  let (addr, cpu) ← cpu.load_imm16
  pure { cpu with pc := addr }

/-- jump_hl (JP HL). -/
def jump_hl : Executor := fun cpu =>
  pure { cpu with pc := cpu.load_reg16 Reg16.HL }

/-- jump_cond_imm16 (JP cc, n16): the immediate is always consumed; on a
taken branch PC is replaced and one extra m-cycle (four t-states) is
charged. -/
def jump_cond_imm16 (c : Condition) : Executor := fun cpu => do
  let (addr, cpu) ← cpu.load_imm16
  if cpu.is_condition_set c then
    pure { cpu with pc := addr, mcycles := cpu.mcycles + 1, tstates := cpu.tstates + 4 }
  else
    pure cpu

/-- jump_rel_imm8 (JR e8) exactly as the source writes it: the sum of PC
and the signed offset is cast to uint8_t, so the new PC is truncated to
its LOW BYTE instead of wrapping at 16 bits. -/
def jump_rel_imm8 : Executor := fun cpu => do
  let (offset, cpu) ← cpu.load_imm8 Imm8.Direct
  pure { cpu with pc := (cpu.pc + int8_offset offset) % 256 }

/-- jump_cond_rel_imm8 (JR cc, e8): same uint8_t truncation on the taken
branch, plus one extra m-cycle. -/
def jump_cond_rel_imm8 (c : Condition) : Executor := fun cpu => do
  let (offset, cpu) ← cpu.load_imm8 Imm8.Direct
  if cpu.is_condition_set c then
    pure { cpu with pc := (cpu.pc + int8_offset offset) % 256,
                    mcycles := cpu.mcycles + 1, tstates := cpu.tstates + 4 }
  else
    pure cpu

/-- call_imm16 (CALL n16): read the target, then write the LOW byte of
the return address at the decremented SP and the HIGH byte at the next
decremented SP, then jump. -/
def call_imm16 : Executor := fun cpu => do
  let (addr, cpu) ← cpu.load_imm16
  let sp1 := (cpu.sp + 65535) % 65536
  let bus1 ← cpu.bus.write_byte sp1 (from_low cpu.pc)
  let sp2 := (sp1 + 65535) % 65536
  let bus2 ← bus1.write_byte sp2 (from_high cpu.pc)
  pure { cpu with sp := sp2, bus := bus2, pc := addr }

/-- call_cond_imm16 (CALL cc, n16): immediate always consumed; on a
taken branch the push and jump happen and three extra m-cycles are
charged. -/
def call_cond_imm16 (c : Condition) : Executor := fun cpu => do
  let (addr, cpu) ← cpu.load_imm16
  if cpu.is_condition_set c then
    let sp1 := (cpu.sp + 65535) % 65536
    let bus1 ← cpu.bus.write_byte sp1 (from_low cpu.pc)
    let sp2 := (sp1 + 65535) % 65536
    let bus2 ← bus1.write_byte sp2 (from_high cpu.pc)
    pure { cpu with sp := sp2, bus := bus2, pc := addr,
                    mcycles := cpu.mcycles + 3, tstates := cpu.tstates + 12 }
  else
    pure cpu

/-- return_no_cond (RET): high from SP, low from SP + 1, SP += 2. -/
def return_no_cond : Executor := fun cpu => do
  let high ← cpu.bus.read_byte cpu.sp
  let cpu := { cpu with sp := (cpu.sp + 1) % 65536 }
  let low ← cpu.bus.read_byte cpu.sp
  let cpu := { cpu with sp := (cpu.sp + 1) % 65536 }
  pure { cpu with pc := from_pair high low }

/-- return_cond (RET cc): on a taken branch pop as RET and charge three
extra m-cycles. -/
def return_cond (c : Condition) : Executor := fun cpu => do
  if cpu.is_condition_set c then
    let high ← cpu.bus.read_byte cpu.sp
    let cpu := { cpu with sp := (cpu.sp + 1) % 65536 }
    let low ← cpu.bus.read_byte cpu.sp
    let cpu := { cpu with sp := (cpu.sp + 1) % 65536 }
    pure { cpu with pc := from_pair high low,
                    mcycles := cpu.mcycles + 3, tstates := cpu.tstates + 12 }
  else
    pure cpu

/-- return_interrupt (RETI): as RET, then IME := true. -/
def return_interrupt : Executor := fun cpu => do
  let high ← cpu.bus.read_byte cpu.sp
  let cpu := { cpu with sp := (cpu.sp + 1) % 65536 }
  let low ← cpu.bus.read_byte cpu.sp
  let cpu := { cpu with sp := (cpu.sp + 1) % 65536 }
  pure { cpu with pc := from_pair high low, ime := true }

/-- restart (RST vec): push PC low-then-high at the decremented SP as
call_imm16 does, then PC := from_pair(0x00, vec). -/
def restart (vec : Nat) : Executor := fun cpu => do
  let sp1 := (cpu.sp + 65535) % 65536
  let bus1 ← cpu.bus.write_byte sp1 (from_low cpu.pc)
  let sp2 := (sp1 + 65535) % 65536
  let bus2 ← bus1.write_byte sp2 (from_high cpu.pc)
  pure { cpu with sp := sp2, bus := bus2, pc := from_pair 0x00 vec }

/-- nop: no effect. -/
def nop : Executor := fun cpu => pure cpu

/-- halt: mode := Halted. -/
def halt : Executor := fun cpu => pure { cpu with mode := Sm83Mode.Halted }

/-- stop: consume one extra byte by incrementing PC, mode := Stopped. -/
def stop : Executor := fun cpu =>
  pure { cpu with pc := (cpu.pc + 1) % 65536, mode := Sm83Mode.Stopped }

/-- enable_interrupt (EI): IME := true immediately (no one-instruction
delay in the source). -/
def enable_interrupt : Executor := fun cpu => pure { cpu with ime := true }

/-- disable_interrupt (DI): IME := false. -/
def disable_interrupt : Executor := fun cpu => pure { cpu with ime := false }


/-- An entry of an instruction table: byte length, m-cycle cost, t-state
cost and the executor; a missing executor is the null pointer marking an
illegal opcode.  The debug mnemonic is omitted. -/
structure Instruction where
  length : Nat
  mcycles : Nat
  tstates : Nat
  execute : Option Executor

/-- A value-initialized table slot: all counts zero, null executor. -/
def Instruction.init : Instruction := ⟨0, 0, 0, none⟩

/-- Slice 0 of no_prefix_assignments (source order). -/
def no_prefix_assignments_0 : List (Nat × Instruction) := [
  (0x40, ⟨1, 1, 4, some (load_r8_r8 Reg8.B Reg8.B)⟩),
  (0x41, ⟨1, 1, 4, some (load_r8_r8 Reg8.B Reg8.C)⟩),
  (0x42, ⟨1, 1, 4, some (load_r8_r8 Reg8.B Reg8.D)⟩),
  (0x43, ⟨1, 1, 4, some (load_r8_r8 Reg8.B Reg8.E)⟩),
  (0x44, ⟨1, 1, 4, some (load_r8_r8 Reg8.B Reg8.H)⟩),
  (0x45, ⟨1, 1, 4, some (load_r8_r8 Reg8.B Reg8.L)⟩),
  (0x47, ⟨1, 1, 4, some (load_r8_r8 Reg8.B Reg8.A)⟩),
  (0x48, ⟨1, 1, 4, some (load_r8_r8 Reg8.C Reg8.B)⟩),
  (0x49, ⟨1, 1, 4, some (load_r8_r8 Reg8.C Reg8.C)⟩),
  (0x4A, ⟨1, 1, 4, some (load_r8_r8 Reg8.C Reg8.D)⟩),
  (0x4B, ⟨1, 1, 4, some (load_r8_r8 Reg8.C Reg8.E)⟩),
  (0x4C, ⟨1, 1, 4, some (load_r8_r8 Reg8.C Reg8.H)⟩),
  (0x4D, ⟨1, 1, 4, some (load_r8_r8 Reg8.C Reg8.L)⟩),
  (0x4F, ⟨1, 1, 4, some (load_r8_r8 Reg8.C Reg8.A)⟩),
  (0x50, ⟨1, 1, 4, some (load_r8_r8 Reg8.D Reg8.B)⟩),
  (0x51, ⟨1, 1, 4, some (load_r8_r8 Reg8.D Reg8.C)⟩)]

/-- Slice 1 of no_prefix_assignments (source order). -/
def no_prefix_assignments_1 : List (Nat × Instruction) := [
  (0x52, ⟨1, 1, 4, some (load_r8_r8 Reg8.D Reg8.D)⟩),
  (0x53, ⟨1, 1, 4, some (load_r8_r8 Reg8.D Reg8.E)⟩),
  (0x54, ⟨1, 1, 4, some (load_r8_r8 Reg8.D Reg8.H)⟩),
  (0x55, ⟨1, 1, 4, some (load_r8_r8 Reg8.D Reg8.L)⟩),
  (0x57, ⟨1, 1, 4, some (load_r8_r8 Reg8.D Reg8.A)⟩),
  (0x58, ⟨1, 1, 4, some (load_r8_r8 Reg8.E Reg8.B)⟩),
  (0x59, ⟨1, 1, 4, some (load_r8_r8 Reg8.E Reg8.C)⟩),
  (0x5A, ⟨1, 1, 4, some (load_r8_r8 Reg8.E Reg8.D)⟩),
  (0x5B, ⟨1, 1, 4, some (load_r8_r8 Reg8.E Reg8.E)⟩),
  (0x5C, ⟨1, 1, 4, some (load_r8_r8 Reg8.E Reg8.H)⟩),
  (0x5D, ⟨1, 1, 4, some (load_r8_r8 Reg8.E Reg8.L)⟩),
  (0x5F, ⟨1, 1, 4, some (load_r8_r8 Reg8.E Reg8.A)⟩),
  (0x60, ⟨1, 1, 4, some (load_r8_r8 Reg8.H Reg8.B)⟩),
  (0x61, ⟨1, 1, 4, some (load_r8_r8 Reg8.H Reg8.C)⟩),
  (0x62, ⟨1, 1, 4, some (load_r8_r8 Reg8.H Reg8.D)⟩),
  (0x63, ⟨1, 1, 4, some (load_r8_r8 Reg8.H Reg8.E)⟩)]

/-- Slice 2 of no_prefix_assignments (source order). -/
def no_prefix_assignments_2 : List (Nat × Instruction) := [
  (0x64, ⟨1, 1, 4, some (load_r8_r8 Reg8.H Reg8.H)⟩),
  (0x65, ⟨1, 1, 4, some (load_r8_r8 Reg8.H Reg8.L)⟩),
  (0x67, ⟨1, 1, 4, some (load_r8_r8 Reg8.H Reg8.A)⟩),
  (0x68, ⟨1, 1, 4, some (load_r8_r8 Reg8.L Reg8.B)⟩),
  (0x69, ⟨1, 1, 4, some (load_r8_r8 Reg8.L Reg8.C)⟩),
  (0x6A, ⟨1, 1, 4, some (load_r8_r8 Reg8.L Reg8.D)⟩),
  (0x6B, ⟨1, 1, 4, some (load_r8_r8 Reg8.L Reg8.E)⟩),
  (0x6C, ⟨1, 1, 4, some (load_r8_r8 Reg8.L Reg8.H)⟩),
  (0x6D, ⟨1, 1, 4, some (load_r8_r8 Reg8.L Reg8.L)⟩),
  (0x6F, ⟨1, 1, 4, some (load_r8_r8 Reg8.L Reg8.A)⟩),
  (0x78, ⟨1, 1, 4, some (load_r8_r8 Reg8.A Reg8.B)⟩),
  (0x79, ⟨1, 1, 4, some (load_r8_r8 Reg8.A Reg8.C)⟩),
  (0x7A, ⟨1, 1, 4, some (load_r8_r8 Reg8.A Reg8.D)⟩),
  (0x7B, ⟨1, 1, 4, some (load_r8_r8 Reg8.A Reg8.E)⟩),
  (0x7C, ⟨1, 1, 4, some (load_r8_r8 Reg8.A Reg8.H)⟩),
  (0x7D, ⟨1, 1, 4, some (load_r8_r8 Reg8.A Reg8.L)⟩)]

/-- Slice 3 of no_prefix_assignments (source order). -/
def no_prefix_assignments_3 : List (Nat × Instruction) := [
  (0x7F, ⟨1, 1, 4, some (load_r8_r8 Reg8.A Reg8.A)⟩),
  (0x06, ⟨2, 2, 8, some (load_r8_imm8 Reg8.B Imm8.Direct)⟩),
  (0x0E, ⟨2, 2, 8, some (load_r8_imm8 Reg8.C Imm8.Direct)⟩),
  (0x16, ⟨2, 2, 8, some (load_r8_imm8 Reg8.D Imm8.Direct)⟩),
  (0x1E, ⟨2, 2, 8, some (load_r8_imm8 Reg8.E Imm8.Direct)⟩),
  (0x26, ⟨2, 2, 8, some (load_r8_imm8 Reg8.H Imm8.Direct)⟩),
  (0x2E, ⟨2, 2, 8, some (load_r8_imm8 Reg8.L Imm8.Direct)⟩),
  (0x3E, ⟨2, 2, 8, some (load_r8_imm8 Reg8.A Imm8.Direct)⟩),
  (0x46, ⟨1, 2, 8, some (load_r8_r8 Reg8.B Reg8.IndirHL)⟩),
  (0x4E, ⟨1, 2, 8, some (load_r8_r8 Reg8.C Reg8.IndirHL)⟩),
  (0x56, ⟨1, 2, 8, some (load_r8_r8 Reg8.D Reg8.IndirHL)⟩),
  (0x5E, ⟨1, 2, 8, some (load_r8_r8 Reg8.E Reg8.IndirHL)⟩),
  (0x66, ⟨1, 2, 8, some (load_r8_r8 Reg8.H Reg8.IndirHL)⟩),
  (0x6E, ⟨1, 2, 8, some (load_r8_r8 Reg8.L Reg8.IndirHL)⟩),
  (0x7E, ⟨1, 2, 8, some (load_r8_r8 Reg8.A Reg8.IndirHL)⟩),
  (0x70, ⟨1, 2, 8, some (load_r8_r8 Reg8.IndirHL Reg8.B)⟩)]

/-- Slice 4 of no_prefix_assignments (source order). -/
def no_prefix_assignments_4 : List (Nat × Instruction) := [
  (0x71, ⟨1, 2, 8, some (load_r8_r8 Reg8.IndirHL Reg8.C)⟩),
  (0x72, ⟨1, 2, 8, some (load_r8_r8 Reg8.IndirHL Reg8.D)⟩),
  (0x73, ⟨1, 2, 8, some (load_r8_r8 Reg8.IndirHL Reg8.E)⟩),
  (0x74, ⟨1, 2, 8, some (load_r8_r8 Reg8.IndirHL Reg8.H)⟩),
  (0x75, ⟨1, 2, 8, some (load_r8_r8 Reg8.IndirHL Reg8.L)⟩),
  (0x77, ⟨1, 2, 8, some (load_r8_r8 Reg8.IndirHL Reg8.A)⟩),
  (0x36, ⟨2, 3, 12, some (load_r8_imm8 Reg8.IndirHL Imm8.Direct)⟩),
  (0xFA, ⟨3, 4, 16, some (load_r8_imm8 Reg8.A Imm8.IndirAbsolute)⟩),
  (0xEA, ⟨3, 4, 16, some (load_imm8_r8 Imm8.IndirAbsolute Reg8.A)⟩),
  (0xF2, ⟨1, 2, 8, some (load_r8_r8 Reg8.A Reg8.IndirHramC)⟩),
  (0xE2, ⟨1, 2, 8, some (load_r8_r8 Reg8.IndirHramC Reg8.A)⟩),
  (0xF0, ⟨2, 3, 12, some (load_r8_imm8 Reg8.A Imm8.IndirHram)⟩),
  (0xE0, ⟨2, 3, 12, some (load_imm8_r8 Imm8.IndirHram Reg8.A)⟩),
  (0x01, ⟨3, 3, 12, some (load_r16_imm16 Reg16.BC)⟩),
  (0x11, ⟨3, 3, 12, some (load_r16_imm16 Reg16.DE)⟩),
  (0x21, ⟨3, 3, 12, some (load_r16_imm16 Reg16.HL)⟩)]

/-- Slice 5 of no_prefix_assignments (source order). -/
def no_prefix_assignments_5 : List (Nat × Instruction) := [
  (0x02, ⟨1, 2, 8, some (load_r16indir_r8 Reg16Indir.BC Reg8.A)⟩),
  (0x12, ⟨1, 2, 8, some (load_r16indir_r8 Reg16Indir.DE Reg8.A)⟩),
  (0x22, ⟨1, 2, 8, some (load_r16indir_r8 Reg16Indir.HLI Reg8.A)⟩),
  (0x32, ⟨1, 2, 8, some (load_r16indir_r8 Reg16Indir.HLD Reg8.A)⟩),
  (0x0A, ⟨1, 2, 8, some (load_r8_r16indir Reg8.A Reg16Indir.BC)⟩),
  (0x1A, ⟨1, 2, 8, some (load_r8_r16indir Reg8.A Reg16Indir.DE)⟩),
  (0x2A, ⟨1, 2, 8, some (load_r8_r16indir Reg8.A Reg16Indir.HLI)⟩),
  (0x3A, ⟨1, 2, 8, some (load_r8_r16indir Reg8.A Reg16Indir.HLD)⟩),
  (0x31, ⟨3, 3, 12, some (load_r16_imm16 Reg16.SP)⟩),
  (0x39, ⟨1, 2, 8, some (add_hl Reg16.SP)⟩),
  (0x33, ⟨1, 2, 8, some (inc_r16 Reg16.SP)⟩),
  (0x38, ⟨1, 2, 8, some (dec_r16 Reg16.SP)⟩),
  (0xE8, ⟨2, 3, 12, some (add_sp_offset)⟩),
  (0xC5, ⟨1, 4, 16, some (push Reg16Stack.BC)⟩),
  (0xD5, ⟨1, 4, 16, some (push Reg16Stack.DE)⟩),
  (0xE5, ⟨1, 4, 16, some (push Reg16Stack.HL)⟩)]

/-- Slice 6 of no_prefix_assignments (source order). -/
def no_prefix_assignments_6 : List (Nat × Instruction) := [
  (0xF5, ⟨1, 4, 16, some (push Reg16Stack.AF)⟩),
  (0xC1, ⟨1, 3, 12, some (pop Reg16Stack.BC)⟩),
  (0xD1, ⟨1, 3, 12, some (pop Reg16Stack.DE)⟩),
  (0xE1, ⟨1, 3, 12, some (pop Reg16Stack.HL)⟩),
  (0xF1, ⟨1, 3, 12, some (pop Reg16Stack.AF)⟩),
  (0xF9, ⟨1, 2, 8, some (load_r16_r16 Reg16.SP Reg16.HL)⟩),
  (0x08, ⟨3, 5, 20, some (load_imm16_r16 Reg16.SP)⟩),
  (0xF8, ⟨2, 3, 12, some (load_hl_sp_offset)⟩),
  (0x80, ⟨1, 1, 4, some (add_a_r8 Reg8.B false)⟩),
  (0x81, ⟨1, 1, 4, some (add_a_r8 Reg8.C false)⟩),
  (0x82, ⟨1, 1, 4, some (add_a_r8 Reg8.D false)⟩),
  (0x83, ⟨1, 1, 4, some (add_a_r8 Reg8.E false)⟩),
  (0x84, ⟨1, 1, 4, some (add_a_r8 Reg8.H false)⟩),
  (0x85, ⟨1, 1, 4, some (add_a_r8 Reg8.L false)⟩),
  (0x87, ⟨1, 1, 4, some (add_a_r8 Reg8.A false)⟩),
  (0x86, ⟨1, 2, 8, some (add_a_r8 Reg8.IndirHL false)⟩)]

/-- Slice 7 of no_prefix_assignments (source order). -/
def no_prefix_assignments_7 : List (Nat × Instruction) := [
  (0x88, ⟨1, 1, 4, some (add_a_r8 Reg8.B true)⟩),
  (0x89, ⟨1, 1, 4, some (add_a_r8 Reg8.C true)⟩),
  (0x8A, ⟨1, 1, 4, some (add_a_r8 Reg8.D true)⟩),
  (0x8B, ⟨1, 1, 4, some (add_a_r8 Reg8.E true)⟩),
  (0x8C, ⟨1, 1, 4, some (add_a_r8 Reg8.H true)⟩),
  (0x8D, ⟨1, 1, 4, some (add_a_r8 Reg8.L true)⟩),
  (0x8F, ⟨1, 1, 4, some (add_a_r8 Reg8.A true)⟩),
  (0x8E, ⟨1, 2, 8, some (add_a_r8 Reg8.IndirHL true)⟩),
  (0xC6, ⟨2, 2, 8, some (add_a_imm8 Imm8.Direct false)⟩),
  (0xCE, ⟨2, 2, 8, some (add_a_imm8 Imm8.Direct true)⟩),
  (0x90, ⟨1, 1, 4, some (sub_a_r8 Reg8.B false)⟩),
  (0x91, ⟨1, 1, 4, some (sub_a_r8 Reg8.C false)⟩),
  (0x92, ⟨1, 1, 4, some (sub_a_r8 Reg8.D false)⟩),
  (0x93, ⟨1, 1, 4, some (sub_a_r8 Reg8.E false)⟩),
  (0x94, ⟨1, 1, 4, some (sub_a_r8 Reg8.H false)⟩),
  (0x95, ⟨1, 1, 4, some (sub_a_r8 Reg8.L false)⟩)]

/-- Slice 8 of no_prefix_assignments (source order). -/
def no_prefix_assignments_8 : List (Nat × Instruction) := [
  (0x97, ⟨1, 1, 4, some (sub_a_r8 Reg8.A false)⟩),
  (0x96, ⟨1, 2, 8, some (sub_a_r8 Reg8.IndirHL false)⟩),
  (0x98, ⟨1, 1, 4, some (sub_a_r8 Reg8.B true)⟩),
  (0x99, ⟨1, 1, 4, some (sub_a_r8 Reg8.C true)⟩),
  (0x9A, ⟨1, 1, 4, some (sub_a_r8 Reg8.D true)⟩),
  (0x9B, ⟨1, 1, 4, some (sub_a_r8 Reg8.E true)⟩),
  (0x9C, ⟨1, 1, 4, some (sub_a_r8 Reg8.H true)⟩),
  (0x9D, ⟨1, 1, 4, some (sub_a_r8 Reg8.L true)⟩),
  (0x9F, ⟨1, 1, 4, some (sub_a_r8 Reg8.A true)⟩),
  (0x9E, ⟨1, 2, 8, some (sub_a_r8 Reg8.IndirHL true)⟩),
  (0xD6, ⟨2, 2, 8, some (sub_a_imm8 Imm8.Direct false)⟩),
  (0xDE, ⟨2, 2, 8, some (sub_a_imm8 Imm8.Direct true)⟩),
  (0x04, ⟨1, 1, 4, some (inc_r8 Reg8.B)⟩),
  (0x0C, ⟨1, 1, 4, some (inc_r8 Reg8.C)⟩),
  (0x14, ⟨1, 1, 4, some (inc_r8 Reg8.D)⟩),
  (0x1C, ⟨1, 1, 4, some (inc_r8 Reg8.E)⟩)]

/-- Slice 9 of no_prefix_assignments (source order). -/
def no_prefix_assignments_9 : List (Nat × Instruction) := [
  (0x24, ⟨1, 1, 4, some (inc_r8 Reg8.H)⟩),
  (0x2C, ⟨1, 1, 4, some (inc_r8 Reg8.L)⟩),
  (0x3C, ⟨1, 1, 4, some (inc_r8 Reg8.A)⟩),
  (0x05, ⟨1, 1, 4, some (dec_r8 Reg8.B)⟩),
  (0x0D, ⟨1, 1, 4, some (dec_r8 Reg8.C)⟩),
  (0x15, ⟨1, 1, 4, some (dec_r8 Reg8.D)⟩),
  (0x1D, ⟨1, 1, 4, some (dec_r8 Reg8.E)⟩),
  (0x25, ⟨1, 1, 4, some (dec_r8 Reg8.H)⟩),
  (0x2D, ⟨1, 1, 4, some (dec_r8 Reg8.L)⟩),
  (0x3D, ⟨1, 1, 4, some (dec_r8 Reg8.A)⟩),
  (0x34, ⟨1, 3, 12, some (inc_r8 Reg8.IndirHL)⟩),
  (0x35, ⟨1, 3, 12, some (dec_r8 Reg8.IndirHL)⟩),
  (0x09, ⟨1, 2, 8, some (add_hl Reg16.HL)⟩),
  (0x19, ⟨1, 2, 8, some (add_hl Reg16.HL)⟩),
  (0x29, ⟨1, 2, 8, some (add_hl Reg16.HL)⟩),
  (0x03, ⟨1, 2, 8, some (inc_r16 Reg16.BC)⟩)]

/-- Slice 10 of no_prefix_assignments (source order). -/
def no_prefix_assignments_10 : List (Nat × Instruction) := [
  (0x13, ⟨1, 2, 8, some (inc_r16 Reg16.DE)⟩),
  (0x23, ⟨1, 2, 8, some (inc_r16 Reg16.HL)⟩),
  (0x0B, ⟨1, 2, 8, some (dec_r16 Reg16.BC)⟩),
  (0x1B, ⟨1, 2, 8, some (dec_r16 Reg16.DE)⟩),
  (0x2B, ⟨1, 2, 8, some (dec_r16 Reg16.HL)⟩),
  (0x37, ⟨1, 1, 4, some (set_carry_flag)⟩),
  (0x3F, ⟨1, 1, 4, some (complement_carry_flag)⟩),
  (0x27, ⟨1, 1, 4, some (decimal_adjust)⟩),
  (0x2F, ⟨1, 1, 4, some (complement_a)⟩),
  (0xA0, ⟨1, 1, 4, some (and_a_r8 Reg8.B)⟩),
  (0xA1, ⟨1, 1, 4, some (and_a_r8 Reg8.C)⟩),
  (0xA2, ⟨1, 1, 4, some (and_a_r8 Reg8.D)⟩),
  (0xA3, ⟨1, 1, 4, some (and_a_r8 Reg8.E)⟩),
  (0xA4, ⟨1, 1, 4, some (and_a_r8 Reg8.H)⟩),
  (0xA5, ⟨1, 1, 4, some (and_a_r8 Reg8.L)⟩),
  (0xA7, ⟨1, 1, 4, some (and_a_r8 Reg8.A)⟩)]

/-- Slice 11 of no_prefix_assignments (source order). -/
def no_prefix_assignments_11 : List (Nat × Instruction) := [
  (0xA6, ⟨1, 2, 8, some (and_a_r8 Reg8.IndirHL)⟩),
  (0xA8, ⟨1, 1, 4, some (xor_a_r8 Reg8.B)⟩),
  (0xA9, ⟨1, 1, 4, some (xor_a_r8 Reg8.C)⟩),
  (0xAA, ⟨1, 1, 4, some (xor_a_r8 Reg8.D)⟩),
  (0xAB, ⟨1, 1, 4, some (xor_a_r8 Reg8.E)⟩),
  (0xAC, ⟨1, 1, 4, some (xor_a_r8 Reg8.H)⟩),
  (0xAD, ⟨1, 1, 4, some (xor_a_r8 Reg8.L)⟩),
  (0xAF, ⟨1, 1, 4, some (xor_a_r8 Reg8.A)⟩),
  (0xAE, ⟨1, 2, 8, some (xor_a_r8 Reg8.IndirHL)⟩),
  (0xB0, ⟨1, 1, 4, some (or_a_r8 Reg8.B)⟩),
  (0xB1, ⟨1, 1, 4, some (or_a_r8 Reg8.C)⟩),
  (0xB2, ⟨1, 1, 4, some (or_a_r8 Reg8.D)⟩),
  (0xB3, ⟨1, 1, 4, some (or_a_r8 Reg8.E)⟩),
  (0xB4, ⟨1, 1, 4, some (or_a_r8 Reg8.H)⟩),
  (0xB5, ⟨1, 1, 4, some (or_a_r8 Reg8.L)⟩),
  (0xB7, ⟨1, 1, 4, some (or_a_r8 Reg8.A)⟩)]

/-- Slice 12 of no_prefix_assignments (source order). -/
def no_prefix_assignments_12 : List (Nat × Instruction) := [
  (0xB6, ⟨1, 2, 8, some (or_a_r8 Reg8.IndirHL)⟩),
  (0xB8, ⟨1, 1, 4, some (cp_a_r8 Reg8.B)⟩),
  (0xB9, ⟨1, 1, 4, some (cp_a_r8 Reg8.C)⟩),
  (0xBA, ⟨1, 1, 4, some (cp_a_r8 Reg8.D)⟩),
  (0xBB, ⟨1, 1, 4, some (cp_a_r8 Reg8.E)⟩),
  (0xBC, ⟨1, 1, 4, some (cp_a_r8 Reg8.H)⟩),
  (0xBD, ⟨1, 1, 4, some (cp_a_r8 Reg8.L)⟩),
  (0xBF, ⟨1, 1, 4, some (cp_a_r8 Reg8.A)⟩),
  (0xBE, ⟨1, 2, 8, some (cp_a_r8 Reg8.IndirHL)⟩),
  (0xE6, ⟨2, 2, 8, some (and_a_imm8 Imm8.Direct)⟩),
  (0xEE, ⟨2, 2, 8, some (xor_a_imm8 Imm8.Direct)⟩),
  (0xF6, ⟨2, 2, 8, some (or_a_imm8 Imm8.Direct)⟩),
  (0xFE, ⟨2, 2, 8, some (cp_a_imm8 Imm8.Direct)⟩),
  (0x07, ⟨1, 1, 4, some (rotate Reg8.A Direction.Left false true)⟩),
  (0x0F, ⟨1, 1, 4, some (rotate Reg8.A Direction.Right false true)⟩),
  (0x17, ⟨1, 1, 4, some (rotate Reg8.A Direction.Left false false)⟩)]

/-- Slice 13 of no_prefix_assignments (source order). -/
def no_prefix_assignments_13 : List (Nat × Instruction) := [
  (0x17, ⟨1, 1, 4, some (rotate Reg8.A Direction.Right false false)⟩),
  (0xC3, ⟨3, 4, 16, some (jump_imm16)⟩),
  (0xE9, ⟨1, 1, 4, some (jump_hl)⟩),
  (0xC2, ⟨3, 3, 12, some (jump_cond_imm16 Condition.NZ)⟩),
  (0xD2, ⟨3, 3, 12, some (jump_cond_imm16 Condition.NC)⟩),
  (0xCA, ⟨3, 3, 12, some (jump_cond_imm16 Condition.Z)⟩),
  (0xDA, ⟨3, 3, 12, some (jump_cond_imm16 Condition.C)⟩),
  (0x18, ⟨2, 3, 12, some (jump_rel_imm8)⟩),
  (0x20, ⟨2, 2, 8, some (jump_cond_rel_imm8 Condition.NZ)⟩),
  (0x30, ⟨2, 2, 8, some (jump_cond_rel_imm8 Condition.NC)⟩),
  (0x28, ⟨2, 2, 8, some (jump_cond_rel_imm8 Condition.Z)⟩),
  (0x38, ⟨2, 2, 8, some (jump_cond_rel_imm8 Condition.C)⟩),
  (0xCD, ⟨3, 6, 24, some (call_imm16)⟩),
  (0xC4, ⟨3, 3, 12, some (call_cond_imm16 Condition.NZ)⟩),
  (0xD4, ⟨3, 3, 12, some (call_cond_imm16 Condition.NC)⟩),
  (0xCC, ⟨3, 3, 12, some (call_cond_imm16 Condition.Z)⟩)]

/-- Slice 14 of no_prefix_assignments (source order). -/
def no_prefix_assignments_14 : List (Nat × Instruction) := [
  (0xEC, ⟨3, 3, 12, some (call_cond_imm16 Condition.C)⟩),
  (0xC9, ⟨1, 4, 16, some (return_no_cond)⟩),
  (0xC0, ⟨1, 2, 8, some (return_cond Condition.NZ)⟩),
  (0xD0, ⟨1, 2, 8, some (return_cond Condition.NC)⟩),
  (0xC8, ⟨1, 2, 8, some (return_cond Condition.Z)⟩),
  (0xD8, ⟨1, 2, 8, some (return_cond Condition.C)⟩),
  (0xD9, ⟨1, 4, 16, some (return_interrupt)⟩),
  (0xC7, ⟨1, 4, 16, some (restart 0x00)⟩),
  (0xD7, ⟨1, 4, 16, some (restart 0x10)⟩),
  (0xE7, ⟨1, 4, 16, some (restart 0x20)⟩),
  (0xF7, ⟨1, 4, 16, some (restart 0x30)⟩),
  (0xCF, ⟨1, 4, 16, some (restart 0x08)⟩),
  (0xDF, ⟨1, 4, 16, some (restart 0x18)⟩),
  (0xEF, ⟨1, 4, 16, some (restart 0x28)⟩),
  (0xFF, ⟨1, 4, 16, some (restart 0x38)⟩),
  (0x00, ⟨1, 1, 4, some (nop)⟩)]

/-- Slice 15 of no_prefix_assignments (source order). -/
def no_prefix_assignments_15 : List (Nat × Instruction) := [
  (0x01, ⟨2, 1, 4, some (stop)⟩),
  (0x76, ⟨1, 1, 4, some (halt)⟩),
  (0xF8, ⟨1, 1, 4, some (enable_interrupt)⟩),
  (0xF3, ⟨1, 1, 4, some (disable_interrupt)⟩),
  (0xD3, ⟨1, 0, 0, none⟩),
  (0xE3, ⟨1, 0, 0, none⟩),
  (0xE4, ⟨1, 0, 0, none⟩),
  (0xF4, ⟨1, 0, 0, none⟩),
  (0xDB, ⟨1, 0, 0, none⟩),
  (0xEB, ⟨1, 0, 0, none⟩),
  (0xEC, ⟨1, 0, 0, none⟩),
  (0xEF, ⟨1, 0, 0, none⟩),
  (0xDD, ⟨1, 0, 0, none⟩),
  (0xDE, ⟨1, 0, 0, none⟩),
  (0xDF, ⟨1, 0, 0, none⟩)]

/-- The assignments of new_no_prefix_instr in source order (index, length, m-cycles, t-states, executor), sliced only to keep elaboration cheap; a later assignment to the same index overwrites an earlier one, exactly as the sequential stores into the std::array do.  The assignment at index 0xFF (RST $38) is outside the 255-entry array; the bounds check of no_prefix_lookup hides it. -/
def no_prefix_assignments : List (Nat × Instruction) :=
  no_prefix_assignments_0 ++ no_prefix_assignments_1 ++ no_prefix_assignments_2 ++ no_prefix_assignments_3 ++ no_prefix_assignments_4 ++ no_prefix_assignments_5 ++ no_prefix_assignments_6 ++ no_prefix_assignments_7 ++ no_prefix_assignments_8 ++ no_prefix_assignments_9 ++ no_prefix_assignments_10 ++ no_prefix_assignments_11 ++ no_prefix_assignments_12 ++ no_prefix_assignments_13 ++ no_prefix_assignments_14 ++ no_prefix_assignments_15

/-- Slice 0 of cb_prefix_assignments (source order). -/
def cb_prefix_assignments_0 : List (Nat × Instruction) := [
  (0x00, ⟨2, 2, 8, some (rotate Reg8.B Direction.Left true true)⟩),
  (0x01, ⟨2, 2, 8, some (rotate Reg8.C Direction.Left true true)⟩),
  (0x02, ⟨2, 2, 8, some (rotate Reg8.D Direction.Left true true)⟩),
  (0x03, ⟨2, 2, 8, some (rotate Reg8.E Direction.Left true true)⟩),
  (0x04, ⟨2, 2, 8, some (rotate Reg8.H Direction.Left true true)⟩),
  (0x05, ⟨2, 2, 8, some (rotate Reg8.L Direction.Left true true)⟩),
  (0x07, ⟨2, 2, 8, some (rotate Reg8.A Direction.Left true true)⟩),
  (0x08, ⟨2, 2, 8, some (rotate Reg8.B Direction.Right true true)⟩),
  (0x09, ⟨2, 2, 8, some (rotate Reg8.C Direction.Right true true)⟩),
  (0x0A, ⟨2, 2, 8, some (rotate Reg8.D Direction.Right true true)⟩),
  (0x0B, ⟨2, 2, 8, some (rotate Reg8.E Direction.Right true true)⟩),
  (0x0C, ⟨2, 2, 8, some (rotate Reg8.H Direction.Right true true)⟩),
  (0x0D, ⟨2, 2, 8, some (rotate Reg8.L Direction.Right true true)⟩),
  (0x0F, ⟨2, 2, 8, some (rotate Reg8.A Direction.Right true true)⟩),
  (0x10, ⟨2, 2, 8, some (rotate Reg8.B Direction.Left true true)⟩),
  (0x11, ⟨2, 2, 8, some (rotate Reg8.C Direction.Left true true)⟩)]

/-- Slice 1 of cb_prefix_assignments (source order). -/
def cb_prefix_assignments_1 : List (Nat × Instruction) := [
  (0x12, ⟨2, 2, 8, some (rotate Reg8.D Direction.Left true true)⟩),
  (0x13, ⟨2, 2, 8, some (rotate Reg8.E Direction.Left true true)⟩),
  (0x14, ⟨2, 2, 8, some (rotate Reg8.H Direction.Left true true)⟩),
  (0x15, ⟨2, 2, 8, some (rotate Reg8.L Direction.Left true true)⟩),
  (0x17, ⟨2, 2, 8, some (rotate Reg8.A Direction.Left true true)⟩),
  (0x18, ⟨2, 2, 8, some (rotate Reg8.B Direction.Right true true)⟩),
  (0x19, ⟨2, 2, 8, some (rotate Reg8.C Direction.Right true true)⟩),
  (0x1A, ⟨2, 2, 8, some (rotate Reg8.D Direction.Right true true)⟩),
  (0x1B, ⟨2, 2, 8, some (rotate Reg8.E Direction.Right true true)⟩),
  (0x1C, ⟨2, 2, 8, some (rotate Reg8.H Direction.Right true true)⟩),
  (0x1D, ⟨2, 2, 8, some (rotate Reg8.L Direction.Right true true)⟩),
  (0x1F, ⟨2, 2, 8, some (rotate Reg8.A Direction.Right true true)⟩),
  (0x06, ⟨2, 4, 16, some (rotate Reg8.IndirHL Direction.Left true true)⟩),
  (0x0E, ⟨2, 4, 16, some (rotate Reg8.IndirHL Direction.Right true true)⟩),
  (0x16, ⟨2, 4, 16, some (rotate Reg8.IndirHL Direction.Left true true)⟩),
  (0x1E, ⟨2, 4, 16, some (rotate Reg8.IndirHL Direction.Right true true)⟩)]

/-- Slice 2 of cb_prefix_assignments (source order). -/
def cb_prefix_assignments_2 : List (Nat × Instruction) := [
  (0x20, ⟨2, 2, 8, some (shift Reg8.B Direction.Left ShiftKind.Arithmatic)⟩),
  (0x21, ⟨2, 2, 8, some (shift Reg8.C Direction.Left ShiftKind.Arithmatic)⟩),
  (0x22, ⟨2, 2, 8, some (shift Reg8.D Direction.Left ShiftKind.Arithmatic)⟩),
  (0x23, ⟨2, 2, 8, some (shift Reg8.E Direction.Left ShiftKind.Arithmatic)⟩),
  (0x24, ⟨2, 2, 8, some (shift Reg8.H Direction.Left ShiftKind.Arithmatic)⟩),
  (0x25, ⟨2, 2, 8, some (shift Reg8.L Direction.Left ShiftKind.Arithmatic)⟩),
  (0x27, ⟨2, 2, 8, some (shift Reg8.A Direction.Left ShiftKind.Arithmatic)⟩),
  (0x26, ⟨2, 4, 16, some (shift Reg8.IndirHL Direction.Left ShiftKind.Arithmatic)⟩),
  (0x28, ⟨2, 2, 8, some (shift Reg8.B Direction.Right ShiftKind.Arithmatic)⟩),
  (0x29, ⟨2, 2, 8, some (shift Reg8.C Direction.Right ShiftKind.Arithmatic)⟩),
  (0x2A, ⟨2, 2, 8, some (shift Reg8.D Direction.Right ShiftKind.Arithmatic)⟩),
  (0x2B, ⟨2, 2, 8, some (shift Reg8.E Direction.Right ShiftKind.Arithmatic)⟩),
  (0x2C, ⟨2, 2, 8, some (shift Reg8.H Direction.Right ShiftKind.Arithmatic)⟩),
  (0x2D, ⟨2, 2, 8, some (shift Reg8.L Direction.Right ShiftKind.Arithmatic)⟩),
  (0x2F, ⟨2, 2, 8, some (shift Reg8.A Direction.Right ShiftKind.Arithmatic)⟩),
  (0x2E, ⟨2, 4, 16, some (shift Reg8.IndirHL Direction.Right ShiftKind.Arithmatic)⟩)]

/-- Slice 3 of cb_prefix_assignments (source order). -/
def cb_prefix_assignments_3 : List (Nat × Instruction) := [
  (0x38, ⟨2, 2, 8, some (shift Reg8.B Direction.Right ShiftKind.Logical)⟩),
  (0x39, ⟨2, 2, 8, some (shift Reg8.C Direction.Right ShiftKind.Logical)⟩),
  (0x3A, ⟨2, 2, 8, some (shift Reg8.D Direction.Right ShiftKind.Logical)⟩),
  (0x3B, ⟨2, 2, 8, some (shift Reg8.E Direction.Right ShiftKind.Logical)⟩),
  (0x3C, ⟨2, 2, 8, some (shift Reg8.H Direction.Right ShiftKind.Logical)⟩),
  (0x3D, ⟨2, 2, 8, some (shift Reg8.L Direction.Right ShiftKind.Logical)⟩),
  (0x3F, ⟨2, 2, 8, some (shift Reg8.A Direction.Right ShiftKind.Logical)⟩),
  (0x3E, ⟨2, 4, 16, some (shift Reg8.IndirHL Direction.Right ShiftKind.Logical)⟩),
  (0x30, ⟨2, 2, 8, some (swap Reg8.B)⟩),
  (0x31, ⟨2, 2, 8, some (swap Reg8.C)⟩),
  (0x32, ⟨2, 2, 8, some (swap Reg8.D)⟩),
  (0x33, ⟨2, 2, 8, some (swap Reg8.E)⟩),
  (0x34, ⟨2, 2, 8, some (swap Reg8.H)⟩),
  (0x35, ⟨2, 2, 8, some (swap Reg8.L)⟩),
  (0x37, ⟨2, 2, 8, some (swap Reg8.A)⟩),
  (0x36, ⟨2, 4, 16, some (swap Reg8.IndirHL)⟩)]

/-- Slice 4 of cb_prefix_assignments (source order). -/
def cb_prefix_assignments_4 : List (Nat × Instruction) := [
  (0x40, ⟨2, 2, 8, some (test_bit 0 Reg8.B)⟩),
  (0x41, ⟨2, 2, 8, some (test_bit 0 Reg8.C)⟩),
  (0x42, ⟨2, 2, 8, some (test_bit 0 Reg8.D)⟩),
  (0x43, ⟨2, 2, 8, some (test_bit 0 Reg8.E)⟩),
  (0x44, ⟨2, 2, 8, some (test_bit 0 Reg8.H)⟩),
  (0x45, ⟨2, 2, 8, some (test_bit 0 Reg8.L)⟩),
  (0x47, ⟨2, 2, 8, some (test_bit 0 Reg8.A)⟩),
  (0x48, ⟨2, 2, 8, some (test_bit 1 Reg8.B)⟩),
  (0x49, ⟨2, 2, 8, some (test_bit 1 Reg8.C)⟩),
  (0x4A, ⟨2, 2, 8, some (test_bit 1 Reg8.D)⟩),
  (0x4B, ⟨2, 2, 8, some (test_bit 1 Reg8.E)⟩),
  (0x4C, ⟨2, 2, 8, some (test_bit 1 Reg8.H)⟩),
  (0x4D, ⟨2, 2, 8, some (test_bit 1 Reg8.L)⟩),
  (0x4F, ⟨2, 2, 8, some (test_bit 1 Reg8.A)⟩),
  (0x50, ⟨2, 2, 8, some (test_bit 2 Reg8.B)⟩),
  (0x51, ⟨2, 2, 8, some (test_bit 2 Reg8.C)⟩)]

/-- Slice 5 of cb_prefix_assignments (source order). -/
def cb_prefix_assignments_5 : List (Nat × Instruction) := [
  (0x52, ⟨2, 2, 8, some (test_bit 2 Reg8.D)⟩),
  (0x53, ⟨2, 2, 8, some (test_bit 2 Reg8.E)⟩),
  (0x54, ⟨2, 2, 8, some (test_bit 2 Reg8.H)⟩),
  (0x55, ⟨2, 2, 8, some (test_bit 2 Reg8.L)⟩),
  (0x57, ⟨2, 2, 8, some (test_bit 2 Reg8.A)⟩),
  (0x58, ⟨2, 2, 8, some (test_bit 3 Reg8.B)⟩),
  (0x59, ⟨2, 2, 8, some (test_bit 3 Reg8.C)⟩),
  (0x5A, ⟨2, 2, 8, some (test_bit 3 Reg8.D)⟩),
  (0x5B, ⟨2, 2, 8, some (test_bit 3 Reg8.E)⟩),
  (0x5C, ⟨2, 2, 8, some (test_bit 3 Reg8.H)⟩),
  (0x5D, ⟨2, 2, 8, some (test_bit 3 Reg8.L)⟩),
  (0x5F, ⟨2, 2, 8, some (test_bit 3 Reg8.A)⟩),
  (0x60, ⟨2, 2, 8, some (test_bit 4 Reg8.B)⟩),
  (0x61, ⟨2, 2, 8, some (test_bit 4 Reg8.C)⟩),
  (0x62, ⟨2, 2, 8, some (test_bit 4 Reg8.D)⟩),
  (0x63, ⟨2, 2, 8, some (test_bit 4 Reg8.E)⟩)]

/-- Slice 6 of cb_prefix_assignments (source order). -/
def cb_prefix_assignments_6 : List (Nat × Instruction) := [
  (0x64, ⟨2, 2, 8, some (test_bit 4 Reg8.H)⟩),
  (0x65, ⟨2, 2, 8, some (test_bit 4 Reg8.L)⟩),
  (0x67, ⟨2, 2, 8, some (test_bit 4 Reg8.A)⟩),
  (0x68, ⟨2, 2, 8, some (test_bit 5 Reg8.B)⟩),
  (0x69, ⟨2, 2, 8, some (test_bit 5 Reg8.C)⟩),
  (0x6A, ⟨2, 2, 8, some (test_bit 5 Reg8.D)⟩),
  (0x6B, ⟨2, 2, 8, some (test_bit 5 Reg8.E)⟩),
  (0x6C, ⟨2, 2, 8, some (test_bit 5 Reg8.H)⟩),
  (0x6D, ⟨2, 2, 8, some (test_bit 5 Reg8.L)⟩),
  (0x6F, ⟨2, 2, 8, some (test_bit 5 Reg8.A)⟩),
  (0x70, ⟨2, 2, 8, some (test_bit 6 Reg8.B)⟩),
  (0x71, ⟨2, 2, 8, some (test_bit 6 Reg8.C)⟩),
  (0x72, ⟨2, 2, 8, some (test_bit 6 Reg8.D)⟩),
  (0x73, ⟨2, 2, 8, some (test_bit 6 Reg8.E)⟩),
  (0x74, ⟨2, 2, 8, some (test_bit 6 Reg8.H)⟩),
  (0x75, ⟨2, 2, 8, some (test_bit 6 Reg8.L)⟩)]

/-- Slice 7 of cb_prefix_assignments (source order). -/
def cb_prefix_assignments_7 : List (Nat × Instruction) := [
  (0x77, ⟨2, 2, 8, some (test_bit 6 Reg8.A)⟩),
  (0x78, ⟨2, 2, 8, some (test_bit 7 Reg8.B)⟩),
  (0x79, ⟨2, 2, 8, some (test_bit 7 Reg8.C)⟩),
  (0x7A, ⟨2, 2, 8, some (test_bit 7 Reg8.D)⟩),
  (0x7B, ⟨2, 2, 8, some (test_bit 7 Reg8.E)⟩),
  (0x7C, ⟨2, 2, 8, some (test_bit 7 Reg8.H)⟩),
  (0x7D, ⟨2, 2, 8, some (test_bit 7 Reg8.L)⟩),
  (0x7F, ⟨2, 2, 8, some (test_bit 7 Reg8.A)⟩),
  (0x46, ⟨2, 3, 12, some (test_bit 0 Reg8.IndirHL)⟩),
  (0x4E, ⟨2, 3, 12, some (test_bit 1 Reg8.IndirHL)⟩),
  (0x56, ⟨2, 3, 12, some (test_bit 2 Reg8.IndirHL)⟩),
  (0x5E, ⟨2, 3, 12, some (test_bit 3 Reg8.IndirHL)⟩),
  (0x66, ⟨2, 3, 12, some (test_bit 4 Reg8.IndirHL)⟩),
  (0x6E, ⟨2, 3, 12, some (test_bit 5 Reg8.IndirHL)⟩),
  (0x76, ⟨2, 3, 12, some (test_bit 6 Reg8.IndirHL)⟩),
  (0x7E, ⟨2, 3, 12, some (test_bit 7 Reg8.IndirHL)⟩)]

/-- Slice 8 of cb_prefix_assignments (source order). -/
def cb_prefix_assignments_8 : List (Nat × Instruction) := [
  (0x80, ⟨2, 2, 8, some (reset_bit_r8 0 Reg8.B)⟩),
  (0x81, ⟨2, 2, 8, some (reset_bit_r8 0 Reg8.C)⟩),
  (0x82, ⟨2, 2, 8, some (reset_bit_r8 0 Reg8.D)⟩),
  (0x83, ⟨2, 2, 8, some (reset_bit_r8 0 Reg8.E)⟩),
  (0x84, ⟨2, 2, 8, some (reset_bit_r8 0 Reg8.H)⟩),
  (0x85, ⟨2, 2, 8, some (reset_bit_r8 0 Reg8.L)⟩),
  (0x87, ⟨2, 2, 8, some (reset_bit_r8 0 Reg8.A)⟩),
  (0x88, ⟨2, 2, 8, some (reset_bit_r8 1 Reg8.B)⟩),
  (0x89, ⟨2, 2, 8, some (reset_bit_r8 1 Reg8.C)⟩),
  (0x8A, ⟨2, 2, 8, some (reset_bit_r8 1 Reg8.D)⟩),
  (0x8B, ⟨2, 2, 8, some (reset_bit_r8 1 Reg8.E)⟩),
  (0x8C, ⟨2, 2, 8, some (reset_bit_r8 1 Reg8.H)⟩),
  (0x8D, ⟨2, 2, 8, some (reset_bit_r8 1 Reg8.L)⟩),
  (0x8F, ⟨2, 2, 8, some (reset_bit_r8 1 Reg8.A)⟩),
  (0x90, ⟨2, 2, 8, some (reset_bit_r8 2 Reg8.B)⟩),
  (0x91, ⟨2, 2, 8, some (reset_bit_r8 2 Reg8.C)⟩)]

/-- Slice 9 of cb_prefix_assignments (source order). -/
def cb_prefix_assignments_9 : List (Nat × Instruction) := [
  (0x92, ⟨2, 2, 8, some (reset_bit_r8 2 Reg8.D)⟩),
  (0x93, ⟨2, 2, 8, some (reset_bit_r8 2 Reg8.E)⟩),
  (0x94, ⟨2, 2, 8, some (reset_bit_r8 2 Reg8.H)⟩),
  (0x95, ⟨2, 2, 8, some (reset_bit_r8 2 Reg8.L)⟩),
  (0x97, ⟨2, 2, 8, some (reset_bit_r8 2 Reg8.A)⟩),
  (0x98, ⟨2, 2, 8, some (reset_bit_r8 3 Reg8.B)⟩),
  (0x99, ⟨2, 2, 8, some (reset_bit_r8 3 Reg8.C)⟩),
  (0x9A, ⟨2, 2, 8, some (reset_bit_r8 3 Reg8.D)⟩),
  (0x9B, ⟨2, 2, 8, some (reset_bit_r8 3 Reg8.E)⟩),
  (0x9C, ⟨2, 2, 8, some (reset_bit_r8 3 Reg8.H)⟩),
  (0x9D, ⟨2, 2, 8, some (reset_bit_r8 3 Reg8.L)⟩),
  (0x9F, ⟨2, 2, 8, some (reset_bit_r8 3 Reg8.A)⟩),
  (0xA0, ⟨2, 2, 8, some (reset_bit_r8 4 Reg8.B)⟩),
  (0xA1, ⟨2, 2, 8, some (reset_bit_r8 4 Reg8.C)⟩),
  (0xA2, ⟨2, 2, 8, some (reset_bit_r8 4 Reg8.D)⟩),
  (0xA3, ⟨2, 2, 8, some (reset_bit_r8 4 Reg8.E)⟩)]

/-- Slice 10 of cb_prefix_assignments (source order). -/
def cb_prefix_assignments_10 : List (Nat × Instruction) := [
  (0xA4, ⟨2, 2, 8, some (reset_bit_r8 4 Reg8.H)⟩),
  (0xA5, ⟨2, 2, 8, some (reset_bit_r8 4 Reg8.L)⟩),
  (0xA7, ⟨2, 2, 8, some (reset_bit_r8 4 Reg8.A)⟩),
  (0xA8, ⟨2, 2, 8, some (reset_bit_r8 5 Reg8.B)⟩),
  (0xA9, ⟨2, 2, 8, some (reset_bit_r8 5 Reg8.C)⟩),
  (0xAA, ⟨2, 2, 8, some (reset_bit_r8 5 Reg8.D)⟩),
  (0xAB, ⟨2, 2, 8, some (reset_bit_r8 5 Reg8.E)⟩),
  (0xAC, ⟨2, 2, 8, some (reset_bit_r8 5 Reg8.H)⟩),
  (0xAD, ⟨2, 2, 8, some (reset_bit_r8 5 Reg8.L)⟩),
  (0xAF, ⟨2, 2, 8, some (reset_bit_r8 5 Reg8.A)⟩),
  (0xB0, ⟨2, 2, 8, some (reset_bit_r8 6 Reg8.B)⟩),
  (0xB1, ⟨2, 2, 8, some (reset_bit_r8 6 Reg8.C)⟩),
  (0xB2, ⟨2, 2, 8, some (reset_bit_r8 6 Reg8.D)⟩),
  (0xB3, ⟨2, 2, 8, some (reset_bit_r8 6 Reg8.E)⟩),
  (0xB4, ⟨2, 2, 8, some (reset_bit_r8 6 Reg8.H)⟩),
  (0xB5, ⟨2, 2, 8, some (reset_bit_r8 6 Reg8.L)⟩)]

/-- Slice 11 of cb_prefix_assignments (source order). -/
def cb_prefix_assignments_11 : List (Nat × Instruction) := [
  (0xB7, ⟨2, 2, 8, some (reset_bit_r8 6 Reg8.A)⟩),
  (0xB8, ⟨2, 2, 8, some (reset_bit_r8 7 Reg8.B)⟩),
  (0xB9, ⟨2, 2, 8, some (reset_bit_r8 7 Reg8.C)⟩),
  (0xBA, ⟨2, 2, 8, some (reset_bit_r8 7 Reg8.D)⟩),
  (0xBB, ⟨2, 2, 8, some (reset_bit_r8 7 Reg8.E)⟩),
  (0xBC, ⟨2, 2, 8, some (reset_bit_r8 7 Reg8.H)⟩),
  (0xBD, ⟨2, 2, 8, some (reset_bit_r8 7 Reg8.L)⟩),
  (0xBF, ⟨2, 2, 8, some (reset_bit_r8 7 Reg8.A)⟩),
  (0x86, ⟨2, 4, 16, some (reset_bit_r8 0 Reg8.IndirHL)⟩),
  (0x8E, ⟨2, 4, 16, some (reset_bit_r8 1 Reg8.IndirHL)⟩),
  (0x96, ⟨2, 4, 16, some (reset_bit_r8 2 Reg8.IndirHL)⟩),
  (0x9E, ⟨2, 4, 16, some (reset_bit_r8 3 Reg8.IndirHL)⟩),
  (0xA6, ⟨2, 4, 16, some (reset_bit_r8 4 Reg8.IndirHL)⟩),
  (0xAE, ⟨2, 4, 16, some (reset_bit_r8 5 Reg8.IndirHL)⟩),
  (0xB6, ⟨2, 4, 16, some (reset_bit_r8 6 Reg8.IndirHL)⟩),
  (0xBE, ⟨2, 4, 16, some (reset_bit_r8 7 Reg8.IndirHL)⟩)]

/-- Slice 12 of cb_prefix_assignments (source order). -/
def cb_prefix_assignments_12 : List (Nat × Instruction) := [
  (0xC0, ⟨2, 2, 8, some (set_bit_r8 0 Reg8.B)⟩),
  (0xC1, ⟨2, 2, 8, some (set_bit_r8 0 Reg8.C)⟩),
  (0xC2, ⟨2, 2, 8, some (set_bit_r8 0 Reg8.D)⟩),
  (0xC3, ⟨2, 2, 8, some (set_bit_r8 0 Reg8.E)⟩),
  (0xC4, ⟨2, 2, 8, some (set_bit_r8 0 Reg8.H)⟩),
  (0xC5, ⟨2, 2, 8, some (set_bit_r8 0 Reg8.L)⟩),
  (0xC7, ⟨2, 2, 8, some (set_bit_r8 0 Reg8.A)⟩),
  (0xC8, ⟨2, 2, 8, some (set_bit_r8 1 Reg8.B)⟩),
  (0xC9, ⟨2, 2, 8, some (set_bit_r8 1 Reg8.C)⟩),
  (0xCA, ⟨2, 2, 8, some (set_bit_r8 1 Reg8.D)⟩),
  (0xCB, ⟨2, 2, 8, some (set_bit_r8 1 Reg8.E)⟩),
  (0xCC, ⟨2, 2, 8, some (set_bit_r8 1 Reg8.H)⟩),
  (0xCD, ⟨2, 2, 8, some (set_bit_r8 1 Reg8.L)⟩),
  (0xCF, ⟨2, 2, 8, some (set_bit_r8 1 Reg8.A)⟩),
  (0xD0, ⟨2, 2, 8, some (set_bit_r8 2 Reg8.B)⟩),
  (0xD1, ⟨2, 2, 8, some (set_bit_r8 2 Reg8.C)⟩)]

/-- Slice 13 of cb_prefix_assignments (source order). -/
def cb_prefix_assignments_13 : List (Nat × Instruction) := [
  (0xD2, ⟨2, 2, 8, some (set_bit_r8 2 Reg8.D)⟩),
  (0xD3, ⟨2, 2, 8, some (set_bit_r8 2 Reg8.E)⟩),
  (0xD4, ⟨2, 2, 8, some (set_bit_r8 2 Reg8.H)⟩),
  (0xD5, ⟨2, 2, 8, some (set_bit_r8 2 Reg8.L)⟩),
  (0xD7, ⟨2, 2, 8, some (set_bit_r8 2 Reg8.A)⟩),
  (0xD8, ⟨2, 2, 8, some (set_bit_r8 3 Reg8.B)⟩),
  (0xD9, ⟨2, 2, 8, some (set_bit_r8 3 Reg8.C)⟩),
  (0xDA, ⟨2, 2, 8, some (set_bit_r8 3 Reg8.D)⟩),
  (0xDB, ⟨2, 2, 8, some (set_bit_r8 3 Reg8.E)⟩),
  (0xDC, ⟨2, 2, 8, some (set_bit_r8 3 Reg8.H)⟩),
  (0xDD, ⟨2, 2, 8, some (set_bit_r8 3 Reg8.L)⟩),
  (0xDF, ⟨2, 2, 8, some (set_bit_r8 3 Reg8.A)⟩),
  (0xE0, ⟨2, 2, 8, some (set_bit_r8 4 Reg8.B)⟩),
  (0xE1, ⟨2, 2, 8, some (set_bit_r8 4 Reg8.C)⟩),
  (0xE2, ⟨2, 2, 8, some (set_bit_r8 4 Reg8.D)⟩),
  (0xE3, ⟨2, 2, 8, some (set_bit_r8 4 Reg8.E)⟩)]

/-- Slice 14 of cb_prefix_assignments (source order). -/
def cb_prefix_assignments_14 : List (Nat × Instruction) := [
  (0xE4, ⟨2, 2, 8, some (set_bit_r8 4 Reg8.H)⟩),
  (0xE5, ⟨2, 2, 8, some (set_bit_r8 4 Reg8.L)⟩),
  (0xE7, ⟨2, 2, 8, some (set_bit_r8 4 Reg8.A)⟩),
  (0xE8, ⟨2, 2, 8, some (set_bit_r8 5 Reg8.B)⟩),
  (0xE9, ⟨2, 2, 8, some (set_bit_r8 5 Reg8.C)⟩),
  (0xEA, ⟨2, 2, 8, some (set_bit_r8 5 Reg8.D)⟩),
  (0xEB, ⟨2, 2, 8, some (set_bit_r8 5 Reg8.E)⟩),
  (0xEC, ⟨2, 2, 8, some (set_bit_r8 5 Reg8.H)⟩),
  (0xED, ⟨2, 2, 8, some (set_bit_r8 5 Reg8.L)⟩),
  (0xEF, ⟨2, 2, 8, some (set_bit_r8 5 Reg8.A)⟩),
  (0xF0, ⟨2, 2, 8, some (set_bit_r8 6 Reg8.B)⟩),
  (0xF1, ⟨2, 2, 8, some (set_bit_r8 6 Reg8.C)⟩),
  (0xF2, ⟨2, 2, 8, some (set_bit_r8 6 Reg8.D)⟩),
  (0xF3, ⟨2, 2, 8, some (set_bit_r8 6 Reg8.E)⟩),
  (0xF4, ⟨2, 2, 8, some (set_bit_r8 6 Reg8.H)⟩),
  (0xF5, ⟨2, 2, 8, some (set_bit_r8 6 Reg8.L)⟩)]

/-- Slice 15 of cb_prefix_assignments (source order). -/
def cb_prefix_assignments_15 : List (Nat × Instruction) := [
  (0xF7, ⟨2, 2, 8, some (set_bit_r8 6 Reg8.A)⟩),
  (0xF8, ⟨2, 2, 8, some (set_bit_r8 7 Reg8.B)⟩),
  (0xF9, ⟨2, 2, 8, some (set_bit_r8 7 Reg8.C)⟩),
  (0xFA, ⟨2, 2, 8, some (set_bit_r8 7 Reg8.D)⟩),
  (0xFB, ⟨2, 2, 8, some (set_bit_r8 7 Reg8.E)⟩),
  (0xFC, ⟨2, 2, 8, some (set_bit_r8 7 Reg8.H)⟩),
  (0xFD, ⟨2, 2, 8, some (set_bit_r8 7 Reg8.L)⟩),
  (0xFF, ⟨2, 2, 8, some (set_bit_r8 7 Reg8.A)⟩),
  (0xC6, ⟨2, 4, 16, some (set_bit_r8 0 Reg8.IndirHL)⟩),
  (0xCE, ⟨2, 4, 16, some (set_bit_r8 1 Reg8.IndirHL)⟩),
  (0xD6, ⟨2, 4, 16, some (set_bit_r8 2 Reg8.IndirHL)⟩),
  (0xDE, ⟨2, 4, 16, some (set_bit_r8 3 Reg8.IndirHL)⟩),
  (0xE6, ⟨2, 4, 16, some (set_bit_r8 4 Reg8.IndirHL)⟩),
  (0xEE, ⟨2, 4, 16, some (set_bit_r8 5 Reg8.IndirHL)⟩),
  (0xF6, ⟨2, 4, 16, some (set_bit_r8 6 Reg8.IndirHL)⟩),
  (0xFE, ⟨2, 4, 16, some (set_bit_r8 7 Reg8.IndirHL)⟩)]

/-- The assignments of new_cb_prefix_instr in source order, sliced as above. -/
def cb_prefix_assignments : List (Nat × Instruction) :=
  cb_prefix_assignments_0 ++ cb_prefix_assignments_1 ++ cb_prefix_assignments_2 ++ cb_prefix_assignments_3 ++ cb_prefix_assignments_4 ++ cb_prefix_assignments_5 ++ cb_prefix_assignments_6 ++ cb_prefix_assignments_7 ++ cb_prefix_assignments_8 ++ cb_prefix_assignments_9 ++ cb_prefix_assignments_10 ++ cb_prefix_assignments_11 ++ cb_prefix_assignments_12 ++ cb_prefix_assignments_13 ++ cb_prefix_assignments_14 ++ cb_prefix_assignments_15

/-- The table a list of assignments denotes: start from value-initialized
slots and apply the assignments left to right. -/
def table_of_assignments (assignments : List (Nat × Instruction)) : Nat → Instruction :=
  assignments.foldl (fun t a => fun j => if j = a.1 then a.2 else t j)
    (fun _ => Instruction.init)

/-- The unprefixed instruction table. -/
def new_no_prefix_instr : Nat → Instruction :=
  table_of_assignments no_prefix_assignments

/-- The CB-prefixed instruction table. -/
def new_cb_prefix_instr : Nat → Instruction :=
  table_of_assignments cb_prefix_assignments

/-- Indexing m_no_prefix_instr[opcode]: the array holds
NO_PREFIX_INSTR_TABLE_SIZE = 255 entries, so opcode 0xFF reads out of
bounds (undefined behaviour): none. -/
def no_prefix_lookup (opcode : Nat) : Option Instruction :=
  if opcode < NO_PREFIX_INSTR_TABLE_SIZE then some (new_no_prefix_instr opcode) else none

/-- Indexing m_cb_prefix_instr[opcode]: 256 entries. -/
def cb_prefix_lookup (opcode : Nat) : Option Instruction :=
  if opcode < CB_PREFIX_INSTR_TABLE_SIZE then some (new_cb_prefix_instr opcode) else none

/-- Outcome of Sm83::step: normal completion, or the IllegalOpcode
exception with the CPU state as it stands at the throw point. -/
inductive StepResult
  | ok (state : Sm83State)
  | illegal (state : Sm83State)

/-- The CPU state carried by a step outcome. -/
def StepResult.state : StepResult → Sm83State
  | .ok s => s
  | .illegal s => s

/-- Whether the step completed without raising. -/
def StepResult.isOk : StepResult → Bool
  | .ok _ => true
  | .illegal _ => false

/-- Sm83::step: fetch the opcode byte at PC and advance PC; on 0xCB
fetch a second byte and consult the CB table, otherwise consult the
unprefixed table; raise IllegalOpcode when the executor is null; else
run the executor and add the base m-cycle and t-state costs.  There is
NO interrupt dispatch and NO halt handling anywhere in this function:
IME, the mode field and the IE/IF registers are never consulted. -/
def step (cpu : Sm83State) : Option StepResult := do
  let opcode ← cpu.bus.read_byte cpu.pc
  let cpu := { cpu with pc := (cpu.pc + 1) % 65536 }
  if opcode == 0xCB then
    let opcode ← cpu.bus.read_byte cpu.pc
    let cpu := { cpu with pc := (cpu.pc + 1) % 65536 }
    let instr ← cb_prefix_lookup opcode
    match instr.execute with
    | none => pure (StepResult.illegal cpu)
    | some exec => do
        let cpu ← exec cpu
        pure (StepResult.ok { cpu with mcycles := cpu.mcycles + instr.mcycles,
                                       tstates := cpu.tstates + instr.tstates })
  else
    let instr ← no_prefix_lookup opcode
    match instr.execute with
    | none => pure (StepResult.illegal cpu)
    | some exec => do
        let cpu ← exec cpu
        pure (StepResult.ok { cpu with mcycles := cpu.mcycles + instr.mcycles,
                                       tstates := cpu.tstates + instr.tstates })

/-- The eleven illegal opcode positions the specification lists.
This definition follows the words of the spec, for comparison with the
table the source builds. -/
def claimed_illegal_opcodes : List Nat :=
  [0xD3, 0xDB, 0xDD, 0xE3, 0xE4, 0xEB, 0xEC, 0xED, 0xF4, 0xFC, 0xFD]

/-- Scenario bus for the interrupt claim: a NOP at 0x0200, IF (0xFF0F)
and IE (0xFFFF) cells holding 0x01, everything else zero. -/
def c1bus : MemoryBus :=
  ⟨fun a => if a = 0x0200 then 0x00 else if a = 0xFF0F then 0x01
            else if a = 0xFFFF then 0x01 else 0x00⟩

/-- Power-on state with PC moved to 0x0200 over c1bus: mode Running,
IME true, SP 0xFFFE, a VBlank interrupt pending and enabled. -/
def c1start : Sm83State := { powerOn c1bus with pc := 0x0200 }

/-- Scenario bus for the immediate-encoding claim: bytes 0x34, 0x12 at
0x0100. -/
def c2bus : MemoryBus :=
  ⟨fun a => if a = 0x0100 then 0x34 else if a = 0x0101 then 0x12 else 0x00⟩

/-- Power-on state over c2bus; PC points at the first immediate byte. -/
def c2start : Sm83State := powerOn c2bus

/-- Scenario bus for the illegal-opcode claim: opcode 0x10 (STOP in the
SM83 ISA) at 0x0100. -/
def c3bus : MemoryBus := ⟨fun a => if a = 0x0100 then 0x10 else 0x00⟩

/-- Power-on state over c3bus. -/
def c3start : Sm83State := powerOn c3bus

/-- An all-zero bus used for claims about the bus itself and as a
neutral carrier state. -/
def c4bus : MemoryBus := ⟨fun _ => 0x00⟩

/-- A neutral CPU state over the all-zero bus. -/
def c7state : Sm83State := powerOn c4bus

/-- Scenario bus for the CALL claim: bytes 0xCD, 0x34, 0x12 at
0x0100. -/
def c5bus : MemoryBus :=
  ⟨fun a => if a = 0x0100 then 0xCD else if a = 0x0101 then 0x34
            else if a = 0x0102 then 0x12 else 0x00⟩

/-- Power-on state over c5bus. -/
def c5start : Sm83State := powerOn c5bus

/-- Scenario bus for the relative-jump claim: bytes 0x18, 0x05 (JR +5)
at 0x0100. -/
def c6bus : MemoryBus :=
  ⟨fun a => if a = 0x0100 then 0x18 else if a = 0x0101 then 0x05 else 0x00⟩

/-- Power-on state over c6bus. -/
def c6start : Sm83State := powerOn c6bus

/-- Scenario bus for the BIT claim: bytes 0xCB, 0x40 (BIT 0, B) at
0x0100. -/
def c8bus : MemoryBus :=
  ⟨fun a => if a = 0x0100 then 0xCB else if a = 0x0101 then 0x40 else 0x00⟩

/-- Power-on state over c8bus with B = 0x01 (bit 0 set) and F = 0. -/
def c8start : Sm83State := { powerOn c8bus with regB := 0x01, regF := 0x00 }

/-- Scenario bus for the ADD claim: opcode 0x80 (ADD A, B) at 0x0100. -/
def c9bus : MemoryBus := ⟨fun a => if a = 0x0100 then 0x80 else 0x00⟩

/-- Power-on state over c9bus with A = 0x3A and B = 0xC6 (scenario S2 of
the spec). -/
def c9start : Sm83State := { powerOn c9bus with regA := 0x3A, regB := 0xC6 }

/-- Scenario bus for the IllegalOpcode claim: opcode 0xD3 at 0x0100. -/
def c10bus : MemoryBus := ⟨fun a => if a = 0x0100 then 0xD3 else 0x00⟩

/-- Power-on state over c10bus. -/
def c10start : Sm83State := powerOn c10bus

/-- The state at the IllegalOpcode throw point for c10start: only PC has
moved past the fetched opcode byte. -/
def c10after : Sm83State := { c10start with pc := 0x0101 }

end Chocboy

open Chocboy

/-- The low eight bits of 255 are all set. -/
theorem testBit_255 (p : Nat) (hp : p < 8) : (255 : Nat).testBit p = true := by
  have h : (255 : Nat) = 2 ^ 8 - 1 := by norm_num
  rw [h, Nat.testBit_two_pow_sub_one]
  simpa using hp

/-- set_bit makes its own bit true. -/
theorem testBit_set_bit_self (p v : Nat) : (set_bit p v).testBit p = true := by
  simp [set_bit, Nat.testBit_or, Nat.one_shiftLeft, Nat.testBit_two_pow_self]

/-- clear_bit makes its own bit false (for bit positions of a uint8). -/
theorem testBit_clear_bit_self (p v : Nat) (hp : p < 8) :
    (clear_bit p v).testBit p = false := by
  simp [clear_bit, Nat.testBit_and, Nat.testBit_xor, Nat.one_shiftLeft,
        Nat.testBit_two_pow_self, testBit_255 p hp]

/-- conditional_bit_toggle assigns its own bit. -/
theorem testBit_condToggle_self (p v : Nat) (b : Bool) (hp : p < 8) :
    (conditional_bit_toggle p v b).testBit p = b := by
  cases b <;>
    simp [conditional_bit_toggle, testBit_set_bit_self, testBit_clear_bit_self p v hp]

/-- set_bit leaves other bits alone. -/
theorem testBit_set_bit_ne (p q v : Nat) (h : q ≠ p) :
    (set_bit p v).testBit q = v.testBit q := by
  simp [set_bit, Nat.testBit_or, Nat.one_shiftLeft, Nat.testBit_two_pow,
        (Ne.symm h : p ≠ q)]

/-- clear_bit leaves other uint8 bits alone. -/
theorem testBit_clear_bit_ne (p q v : Nat) (hq : q < 8) (h : q ≠ p) :
    (clear_bit p v).testBit q = v.testBit q := by
  simp [clear_bit, Nat.testBit_and, Nat.testBit_xor, Nat.one_shiftLeft,
        Nat.testBit_two_pow, (Ne.symm h : p ≠ q), testBit_255 q hq]

/-- conditional_bit_toggle leaves other uint8 bits alone. -/
theorem testBit_condToggle_ne (p q v : Nat) (b : Bool) (hq : q < 8) (h : q ≠ p) :
    (conditional_bit_toggle p v b).testBit q = v.testBit q := by
  cases b <;>
    simp [conditional_bit_toggle, testBit_set_bit_ne p q v h,
          testBit_clear_bit_ne p q v hq h]

/-- Below 32, testing the 0x10 bit for equality with 0x10 is the same as
testing it against zero. -/
theorem land16_cases : ∀ z, z < 32 → ((z &&& 16 == 16) = decide (z &&& 16 ≠ 0)) := by
  decide

/-- The half-carry predicate of the source agrees with the formula of
the claim. -/
theorem is_half_carry_add_iff (a b : Nat) :
    is_half_carry_add a b = decide (((a &&& 15) + (b &&& 15)) &&& 16 ≠ 0) := by
  have ha : a &&& 15 ≤ 15 := Nat.and_le_right
  have hb : b &&& 15 ≤ 15 := Nat.and_le_right
  exact land16_cases _ (by omega)

/-- A successful bus read returns a byte. -/
theorem read_byte_lt {m : MemoryBus} {a v : Nat} (h : m.read_byte a = some v) :
    v < 256 := by
  unfold MemoryBus.read_byte at h
  split at h
  · cases h
    exact Nat.mod_lt _ (by norm_num)
  · cases h

set_option maxRecDepth 10000

/-- C10: whenever step() raises IllegalOpcode, the m_cycles and t_states
counters are unchanged by that call, PC has already been advanced past
the fetched opcode byte (by 2 for a CB-prefixed fetch, by 1 otherwise),
and no register, SP, bus cell, mode or IME has been modified. -/
theorem C10_illegal_preserves_state :
    ∀ (cpu r : Sm83State), step cpu = some (StepResult.illegal r) →
      r.mcycles = cpu.mcycles ∧ r.tstates = cpu.tstates ∧
      r.regA = cpu.regA ∧ r.regF = cpu.regF ∧ r.regB = cpu.regB ∧
      r.regC = cpu.regC ∧ r.regD = cpu.regD ∧ r.regE = cpu.regE ∧
      r.regH = cpu.regH ∧ r.regL = cpu.regL ∧ r.sp = cpu.sp ∧
      r.bus = cpu.bus ∧ r.mode = cpu.mode ∧ r.ime = cpu.ime ∧
      (∃ op, cpu.bus.read_byte cpu.pc = some op ∧
        r.pc = (cpu.pc + (if op = 0xCB then 2 else 1)) % 65536) := by
  intro cpu r h
  unfold step at h
  cases h1 : cpu.bus.read_byte cpu.pc with
  | none => rw [h1] at h; simp at h
  | some op =>
    rw [h1] at h
    simp only [Option.bind_eq_bind, Option.some_bind] at h
    by_cases hop : op = 0xCB
    · simp only [hop, beq_self_eq_true, if_true] at h
      cases h2 : cpu.bus.read_byte ((cpu.pc + 1) % 65536) with
      | none => rw [h2] at h; simp at h
      | some op2 =>
        rw [h2] at h
        simp only [Option.some_bind] at h
        have hlt : op2 < 256 := read_byte_lt h2
        rw [cb_prefix_lookup] at h
        rw [if_pos (by simpa [CB_PREFIX_INSTR_TABLE_SIZE] using hlt)] at h
        simp only [Option.some_bind] at h
        cases hE : (new_cb_prefix_instr op2).execute with
        | none =>
          rw [hE] at h
          simp only [Option.pure_def, Option.some.injEq, StepResult.illegal.injEq] at h
          subst h
          refine ⟨rfl, rfl, rfl, rfl, rfl, rfl, rfl, rfl, rfl, rfl, rfl, rfl, rfl, rfl,
            ⟨op, rfl, ?_⟩⟩
          simp only [hop, if_pos rfl, eq_self_iff_true, if_true]
          omega
        | some exec =>
          rw [hE] at h
          simp only [Option.some_bind] at h
          cases h3 : exec { cpu with pc := ((cpu.pc + 1) % 65536 + 1) % 65536 } with
          | none => rw [h3] at h; simp at h
          | some c => rw [h3] at h; simp at h
    · rw [if_neg (by simp [hop])] at h
      by_cases hlt : op < NO_PREFIX_INSTR_TABLE_SIZE
      · rw [no_prefix_lookup, if_pos hlt] at h
        simp only [Option.some_bind] at h
        cases hE : (new_no_prefix_instr op).execute with
        | none =>
          rw [hE] at h
          simp only [Option.pure_def, Option.some.injEq, StepResult.illegal.injEq] at h
          subst h
          exact ⟨rfl, rfl, rfl, rfl, rfl, rfl, rfl, rfl, rfl, rfl, rfl, rfl, rfl, rfl,
            ⟨op, rfl, by simp [hop]⟩⟩
        | some exec =>
          rw [hE] at h
          simp only [Option.some_bind] at h
          cases h3 : exec { cpu with pc := (cpu.pc + 1) % 65536 } with
          | none => rw [h3] at h; simp at h
          | some c => rw [h3] at h; simp at h
      · rw [no_prefix_lookup, if_neg hlt] at h
        simp at h

/-- Witness for C10: fetching the illegal opcode 0xD3 at power-on
raises, and the throw-point state has unchanged counters and bus and PC
advanced by one. -/
theorem C10_illegal_preserves_state_witness :
    step c10start = some (StepResult.illegal c10after) ∧
    c10after.mcycles = c10start.mcycles ∧ c10after.tstates = c10start.tstates ∧
    c10after.bus = c10start.bus ∧ c10after.pc = (c10start.pc + 1) % 65536 := by
  have h : step c10start = some (StepResult.illegal c10after) := by rfl
  have hp := C10_illegal_preserves_state c10start c10after h
  exact ⟨h, hp.1, hp.2.1, hp.2.2.2.2.2.2.2.2.2.2.2.1, by rfl⟩

/-- C1 (refuting evaluation): in the claimed start state (mode Running,
IME true, IE = IF = 0x01, PC = 0x0200, SP = 0xFFFE, a NOP under PC),
step() performs NO interrupt dispatch: it executes the fetched NOP, so
afterwards IME is still true, IF is still 0x01, SP is still 0xFFFE, PC
is 0x0201 (not the 0x0040 vector) and m_cycles increased by 1, not 5. -/
theorem C1_step_has_no_interrupt_dispatch :
    (step c1start).map (fun r => (r.isOk, r.state.ime)) = some (true, true)
      ∧ (step c1start).map (fun r => (r.state.pc, r.state.sp)) = some (0x0201, 0xFFFE)
      ∧ (step c1start).map (fun r => r.state.bus.read_byte 0xFF0F) = some (some 0x01)
      ∧ (step c1start).map (fun r => r.state.mcycles) = some 1 := by
  refine ⟨by decide, by decide, by decide, by decide⟩

/-- C2 (refuting evaluation): with bytes 0x34, 0x12 at PC, load_imm16
assembles the 16-bit immediate through MemoryBus::read_word as
(bus[PC] << 8) | bus[PC+1] = 0x3412 — big-endian — rather than the
little-endian bus[PC] | (bus[PC+1] << 8) = 0x1234 the claim states; PC
does advance by 2. -/
theorem C2_imm16_assembled_big_endian :
    (c2start.load_imm16).map (fun vc => (vc.1, vc.2.pc)) = some (0x3412, 0x0102)
      ∧ (0x3412 : Nat) ≠ 0x1234 := by decide

/-- C3 (refuting evaluation): opcode 0x10 (STOP in the SM83 ISA) is
never assigned in the unprefixed table (the Stop enumerator is mistyped
as 0x01), so its slot keeps the null executor and step() raises
IllegalOpcode on it — yet 0x10 is not among the eleven positions the
claim lists. -/
theorem C3_opcode_0x10_raises_but_not_claimed :
    (step c3start).map (fun r => r.isOk) = some false ∧
    (0x10 : Nat) ∉ claimed_illegal_opcodes := by decide

/-- C4 (refuting evaluation): the backing store holds
MEMORY_BUS_SIZE = 65535 cells, indices 0..0xFFFE, so reading or writing
address 0xFFFF — the IE register — indexes out of bounds instead of
reaching an in-bounds cell. -/
theorem C4_ie_register_out_of_bounds :
    c4bus.read_byte 0xFFFF = none ∧ c4bus.write_byte 0xFFFF 0x01 = none ∧
    ¬ (0xFFFF < MEMORY_BUS_SIZE) := ⟨rfl, rfl, by decide⟩

/-- C5 (refuting evaluation): executing CALL from the power-on state
with bytes 0xCD 0x34 0x12 ends with bus[0xFFFD] = 0x03 (LOW byte of the
return address 0x0103) and bus[0xFFFC] = 0x01 (HIGH byte) — the claim
expects 0x01 and 0x03 respectively — and with PC = 0x3412 because the
immediate is assembled big-endian, not the claimed 0x1234; SP is 0xFFFC
as claimed. -/
theorem C5_call_pushes_low_high_swapped :
    (step c5start).map
      (fun r => (r.isOk, r.state.pc, r.state.sp,
                 r.state.bus.read_byte 0xFFFD, r.state.bus.read_byte 0xFFFC))
      = some (true, 0x3412, 0xFFFC, some 0x03, some 0x01) := by decide

/-- C6 (refuting evaluation): JR e8 computes the branch target with a
static_cast to uint8_t, so from PC = 0x0100 with offset +5 the new PC is
0x0007 — the low byte of the correct 0x0107 — instead of the claimed
16-bit sum. -/
theorem C6_jr_truncates_pc_to_byte :
    ((step c6start).map (fun r => (r.isOk, r.state.pc)) = some (true, 0x07))
      ∧ (0x07 : Nat) ≠ 0x0107 := by decide

/-- C7 (counterexample): storing 0x000F to AF and loading it back yields
0x000F, not the 0x0000 the claim predicts: the low nibble of F is
preserved, never forced to zero. -/
theorem C7_af_low_nibble_preserved_counterexample :
    (c7state.store_reg16_stack Reg16Stack.AF 0x000F).load_reg16_stack Reg16Stack.AF
      = 0x000F ∧ (0x000F : Nat) ≠ 0x0000 := by decide

/-- C7 (amended): for every 16-bit value and every stack pair — AF
included — store16_stack followed by load16_stack returns the value
exactly; no bits of F are masked. -/
theorem C7_roundtrip_exact :
    ∀ (r : Reg16Stack) (v : Nat) (cpu : Sm83State), v < 65536 →
      (cpu.store_reg16_stack r v).load_reg16_stack r = v := by
  intro r v cpu hv
  cases r <;>
    simp [Sm83State.store_reg16_stack, Sm83State.load_reg16_stack, Sm83State.store_reg16,
          Sm83State.load_reg16, from_pair, from_high, from_low, Nat.mod_eq_of_lt hv] <;>
    omega

/-- Witness for C7: the AF round trip at 0xBEEF returns 0xBEEF exactly
(the repository unit test uses this very value). -/
theorem C7_roundtrip_exact_witness :
    (0xBEEF : Nat) < 65536 ∧
    (c7state.store_reg16_stack Reg16Stack.AF 0xBEEF).load_reg16_stack Reg16Stack.AF
      = 0xBEEF :=
  ⟨by decide, C7_roundtrip_exact Reg16Stack.AF 0xBEEF c7state (by decide)⟩

/-- C8 (refuting evaluation): executing BIT 0, B (bytes 0xCB 0x40) with
B = 0x01 and F = 0 ends with the Z flag TRUE although bit 0 of the
operand is set — test_bit assigns Z the bit value itself, not its
negation as the claim states.  N = 0, H = 1, C unchanged (0) and the
operand unchanged, as the claim also requires. -/
theorem C8_bit_z_equals_bit_value :
    ((step c8start).map (fun r => (r.isOk, r.state.regB, r.state.pc))
        = some (true, 0x01, 0x0102))
      ∧ ((step c8start).map
          (fun r => (r.state.regF.testBit 7, r.state.regF.testBit 6,
                     r.state.regF.testBit 5, r.state.regF.testBit 4))
          = some (true, false, true, false))
      ∧ is_bit_set 0 0x01 = true := by
  refine ⟨by decide, by decide, by decide⟩

/-- C9: for the 8-bit add family the H flag equals
(((a & 0xF) + (b & 0xF)) & 0x10) != 0 and the C flag equals
result < a with result the 8-bit wrapped sum, for all operand values;
and concretely, opcode 0x80 (ADD A, B) from the power-on state with
A = 0x3A and B = 0xC6 ends with A = 0x00, Z = 1, N = 0, H = 1, C = 1 and
PC advanced by 1. -/
theorem C9_add_flag_semantics :
    (∀ (cpu : Sm83State) (a b : Nat),
        ((add_update_flags cpu ((a + b) % 256) a b).regF.testBit 5
            = decide (((a &&& 15) + (b &&& 15)) &&& 16 ≠ 0))
      ∧ ((add_update_flags cpu ((a + b) % 256) a b).regF.testBit 4
            = decide ((a + b) % 256 < a)))
    ∧ ((step c9start).map (fun r => (r.isOk, r.state.regA, r.state.pc))
          = some (true, 0x00, 0x0101)
        ∧ (step c9start).map
            (fun r => (r.state.regF.testBit 7, r.state.regF.testBit 6,
                       r.state.regF.testBit 5, r.state.regF.testBit 4))
            = some (true, false, true, true)) := by
  constructor
  · intro cpu a b
    constructor
    · simp only [add_update_flags, Sm83State.conditional_flag_toggle, Sm83State.clear_flag,
                 Flag.pos]
      rw [testBit_condToggle_ne 4 5 _ _ (by norm_num) (by norm_num),
          testBit_condToggle_self 5 _ _ (by norm_num)]
      exact is_half_carry_add_iff a b
    · simp only [add_update_flags, Sm83State.conditional_flag_toggle, Sm83State.clear_flag,
                 Flag.pos]
      rw [testBit_condToggle_self 4 _ _ (by norm_num)]
      rfl
  · exact ⟨by decide, by decide⟩
